import Mathlib

/-!
Verification of the DeviceVault backup-orchestration pipeline.

Shallow embedding of the scheduler recurrence calculation
(`backend/backups/scheduler.py`, `backend/backups/signals.py`), the collection
worker (`backend/devicevault_worker.py`), the storage worker
(`backend/storage/tasks.py`) and the two result ingestors
(`backend/devices/management/commands/consume_device_results.py`,
`backend/devices/management/commands/consume_storage_results.py`).

Conventions used throughout:
* Naive Python `datetime` values that are only ever shifted by whole
  days/seconds are represented by their epoch-second encoding as an `Int`;
  `dt.replace(hour=h, minute=m, second=0, microsecond=0)` becomes
  "midnight of the same day plus `3600*h + 60*m`", and `dt + timedelta(days=1)`
  becomes `+ 86400`.  Comparison of naive datetimes coincides with comparison
  of the encodings.
* The display timezone is modelled as a fixed offset `off` in seconds
  (`core/timezone_utils.py`: `utc_to_local t = t + off`, `local_to_utc t = t - off`;
  the deployment default `DEVICEVAULT_DISPLAY_TIMEZONE` is `'UTC'`, i.e. `off = 0`).
* The monthly recurrence branch manipulates calendar fields directly, so it is
  embedded over an explicit year/month/day structure instead.
* Fallible Python operations (`datetime.replace` raising `ValueError`) return
  `Option`; `none` is the raised exception.
-/

namespace DeviceVault

/-- Seconds per day. -/
def secPerDay : Int := 86400

/-- Local civil-day index of a naive instant given in epoch seconds
    (which day the instant falls on).  `Int` `/` rounds toward negative
    infinity for a positive divisor, matching Python `//`. -/
def dayIndex (t : Int) : Int := t / secPerDay

/-- Second-of-day of a naive instant given in epoch seconds.  `Int` `%` with a
    positive modulus returns a value in `[0, 86400)`, matching Python `%`. -/
def secOfDay (t : Int) : Int := t % secPerDay

/-- `current_display.replace(hour=schedule.hour, minute=schedule.minute, second=0,
    microsecond=0)` under the epoch-second encoding: midnight of the same local
    day plus the configured time of day.  From the daily branch of
    `SchedulerDaemon.calculate_next_run` (`backups/scheduler.py` lines 199-204). -/
def dailyTarget (hour minute : Nat) (tl : Int) : Int :=
  dayIndex tl * secPerDay + 3600 * (hour : Int) + 60 * (minute : Int)

/-- Daily branch of `SchedulerDaemon.calculate_next_run`
    (`backups/scheduler.py` lines 197-206), acting on a naive local-time
    instant `tl` in epoch seconds: take today's occurrence of `hour:minute`;
    if that is not strictly in the future (`next_run <= current_display`),
    move to tomorrow (`next_run += timedelta(days=1)`). -/
def calcNextRunDaily (hour minute : Nat) (tl : Int) : Int :=
  if dailyTarget hour minute tl ≤ tl then dailyTarget hour minute tl + secPerDay
  else dailyTarget hour minute tl

/-- C6: for every daily `BackupSchedule` and reference instant `t` (UTC epoch
    seconds, display offset `off`), `calculate_next_run` returns the occurrence
    of `hour:minute` in the display timezone strictly after the reference:
    on the same local day when the configured time of day has not yet passed
    at the reference, and on the next local day when it has. -/
theorem daily_next_run_correct (hour minute : Nat) (off t : Int)
    (hh : hour < 24) (hm : minute < 60) :
    t + off < calcNextRunDaily hour minute (t + off) ∧
    secOfDay (calcNextRunDaily hour minute (t + off)) =
      3600 * (hour : Int) + 60 * (minute : Int) ∧
    (secOfDay (t + off) < 3600 * (hour : Int) + 60 * (minute : Int) →
      dayIndex (calcNextRunDaily hour minute (t + off)) = dayIndex (t + off)) ∧
    (3600 * (hour : Int) + 60 * (minute : Int) ≤ secOfDay (t + off) →
      dayIndex (calcNextRunDaily hour minute (t + off)) = dayIndex (t + off) + 1) := by
  have hhI : (hour : Int) < 24 := by exact_mod_cast hh
  have hmI : (minute : Int) < 60 := by exact_mod_cast hm
  have hh0 : (0 : Int) ≤ (hour : Int) := Int.ofNat_nonneg hour
  have hm0 : (0 : Int) ≤ (minute : Int) := Int.ofNat_nonneg minute
  simp only [calcNextRunDaily, dailyTarget, dayIndex, secOfDay, secPerDay]
  split_ifs with hif <;> refine ⟨by omega, by omega, by omega, by omega⟩

/-- Witness for C6, instantiating the claim's example: a daily 02:00 schedule
    (display offset 0) evaluated at 01:00 yields 02:00 the same day
    (instant 3600 gives 7200), and evaluated at 03:00 yields 02:00 tomorrow
    (instant 10800 gives 7200 + 86400). -/
theorem daily_next_run_correct_witness :
    (2 < 24 ∧ 0 < 60) ∧
    (3600 + 0 < calcNextRunDaily 2 0 (3600 + 0) ∧
      secOfDay (calcNextRunDaily 2 0 (3600 + 0)) = 3600 * (2 : Int) + 60 * 0 ∧
      (secOfDay (3600 + 0) < 3600 * (2 : Int) + 60 * 0 →
        dayIndex (calcNextRunDaily 2 0 (3600 + 0)) = dayIndex (3600 + 0)) ∧
      (3600 * (2 : Int) + 60 * 0 ≤ secOfDay (3600 + 0) →
        dayIndex (calcNextRunDaily 2 0 (3600 + 0)) = dayIndex (3600 + 0) + 1)) ∧
    (10800 + 0 < calcNextRunDaily 2 0 (10800 + 0) ∧
      secOfDay (calcNextRunDaily 2 0 (10800 + 0)) = 3600 * (2 : Int) + 60 * 0 ∧
      (secOfDay (10800 + 0) < 3600 * (2 : Int) + 60 * 0 →
        dayIndex (calcNextRunDaily 2 0 (10800 + 0)) = dayIndex (10800 + 0)) ∧
      (3600 * (2 : Int) + 60 * 0 ≤ secOfDay (10800 + 0) →
        dayIndex (calcNextRunDaily 2 0 (10800 + 0)) = dayIndex (10800 + 0) + 1)) :=
  ⟨by decide, daily_next_run_correct 2 0 0 3600 (by decide) (by decide),
    daily_next_run_correct 2 0 0 10800 (by decide) (by decide)⟩

/-! ### Monthly recurrence (calendar model)

The monthly branch of the recurrence calculation manipulates year/month/day
fields directly, so it is embedded over an explicit naive-datetime structure.
Python `datetime.replace` validates every field and raises `ValueError` on an
out-of-range value; that is modelled by `Option` (`none` = exception). -/

/-- A naive Python `datetime` (no tzinfo). -/
structure NaiveDT where
  year : Int
  month : Int
  day : Int
  hour : Int
  minute : Int
  second : Int
  micro : Int
deriving DecidableEq, Repr

/-- Gregorian leap-year rule (`y % 4 == 0 and (y % 100 != 0 or y % 400 == 0)`). -/
def isLeapYear (y : Int) : Bool :=
  y % 4 == 0 && (y % 100 != 0 || y % 400 == 0)

/-- Length of a month in the proleptic Gregorian calendar. -/
def daysInMonth (y m : Int) : Int :=
  if m = 2 then (if isLeapYear y then 29 else 28)
  else if m = 4 ∨ m = 6 ∨ m = 9 ∨ m = 11 then 30
  else 31

/-- Mixed-radix encoding of a `NaiveDT`; for field values within calendar
    range it is strictly monotone in the field-lexicographic order, which is
    how Python compares naive datetimes. -/
def dtKey (d : NaiveDT) : Int :=
  (((((d.year * 13 + d.month) * 32 + d.day) * 24 + d.hour) * 60 + d.minute) * 60
      + d.second) * 1000000 + d.micro

/-- `current_display.replace(day=schedule.day_of_month, hour=schedule.hour,
    minute=schedule.minute, second=0, microsecond=0)`
    (`backups/scheduler.py` lines 227-233): Python validates the new field
    values against the *current* year/month and raises `ValueError` (here:
    `none`) when, e.g., the day does not exist in that month. -/
def replaceDayTime (cur : NaiveDT) (d h mi : Int) : Option NaiveDT :=
  if 1 ≤ d ∧ d ≤ daysInMonth cur.year cur.month ∧
      0 ≤ h ∧ h ≤ 23 ∧ 0 ≤ mi ∧ mi ≤ 59 then
    some { cur with day := d, hour := h, minute := mi, second := 0, micro := 0 }
  else none

/-- The move-to-next-month step of the monthly branch
    (`backups/scheduler.py` lines 234-239):
    `next_run.replace(year=next_run.year + 1, month=1)` when the month is
    December, else `next_run.replace(month=next_run.month + 1)`.  The kept
    `day` is re-validated against the new month and `ValueError` is raised
    (here: `none`) when it does not exist there (e.g. Jan 31 -> Feb 31). -/
def replaceMonthRoll (nr : NaiveDT) : Option NaiveDT :=
  if nr.month = 12 then
    if nr.day ≤ daysInMonth (nr.year + 1) 1 then
      some { nr with year := nr.year + 1, month := 1 }
    else none
  else
    if nr.day ≤ daysInMonth nr.year (nr.month + 1) then
      some { nr with month := nr.month + 1 }
    else none

/-- Monthly branch of `SchedulerDaemon.calculate_next_run`
    (`backups/scheduler.py` lines 225-239).  There is no `try/except` in the
    scheduler version, so a `ValueError` from either `replace` propagates to
    the caller (result `none`). -/
def calcNextRunMonthlySched (dayOfMonth hour minute : Int) (cur : NaiveDT) :
    Option NaiveDT :=
  match replaceDayTime cur dayOfMonth hour minute with
  | none => none
  | some nr => if dtKey nr ≤ dtKey cur then replaceMonthRoll nr else some nr

/-- Monthly branch of the signal-side `calculate_next_run`
    (`backups/signals.py` lines 76-99).  Its `try` block is exactly the
    scheduler computation above; `except ValueError` falls back to day 1 of
    the month after the *current* month, keeping the current instant's
    time-of-day (`current_display.replace(month=current_display.month + 1, day=1)`,
    with a year rollover for December). -/
def calcNextRunMonthlySignals (dayOfMonth hour minute : Int) (cur : NaiveDT) :
    NaiveDT :=
  match calcNextRunMonthlySched dayOfMonth hour minute cur with
  | some nr => nr
  | none =>
    if cur.month = 12 then { cur with year := cur.year + 1, month := 1, day := 1 }
    else { cur with month := cur.month + 1, day := 1 }

/-- Counterexample to C3: a monthly schedule on day 31 with configured time
    02:00, evaluated at the reference instant 2026-04-15 10:00:00 (April has
    30 days), makes the scheduler's `calculate_next_run` raise `ValueError`
    (`none`) instead of returning day 1 of the following month
    (2026-05-01 02:00:00) as the claim states. -/
theorem monthly_invalid_day_counterexample :
    calcNextRunMonthlySched 31 2 0 ⟨2026, 4, 15, 10, 0, 0, 0⟩ = none ∧
    calcNextRunMonthlySched 31 2 0 ⟨2026, 4, 15, 10, 0, 0, 0⟩ ≠
      some ⟨2026, 5, 1, 2, 0, 0, 0⟩ := by
  constructor <;> decide

/-- C3 as amended: whenever `day_of_month` exceeds the number of days in the
    reference instant's month, the scheduler's `calculate_next_run` raises
    `ValueError` (`none`) rather than degrading; the degrade-to-day-1 policy
    exists only in the signal-side recalculation (`backups/signals.py`), which
    returns day 1 of the month following the reference's month while keeping
    the reference's own time-of-day, not the configured `hour:minute`. -/
theorem monthly_invalid_day_behavior (dom h mi : Int) (cur : NaiveDT)
    (hdom : daysInMonth cur.year cur.month < dom) :
    calcNextRunMonthlySched dom h mi cur = none ∧
    calcNextRunMonthlySignals dom h mi cur =
      (if cur.month = 12 then
        { cur with year := cur.year + 1, month := 1, day := 1 }
      else { cur with month := cur.month + 1, day := 1 }) ∧
    (calcNextRunMonthlySignals dom h mi cur).day = 1 ∧
    (calcNextRunMonthlySignals dom h mi cur).hour = cur.hour ∧
    (calcNextRunMonthlySignals dom h mi cur).minute = cur.minute := by
  have hrep : replaceDayTime cur dom h mi = none := by
    unfold replaceDayTime
    rw [if_neg]
    intro hcon
    omega
  have hsched : calcNextRunMonthlySched dom h mi cur = none := by
    unfold calcNextRunMonthlySched
    rw [hrep]
  have hsig : calcNextRunMonthlySignals dom h mi cur =
      (if cur.month = 12 then
        { cur with year := cur.year + 1, month := 1, day := 1 }
      else { cur with month := cur.month + 1, day := 1 }) := by
    unfold calcNextRunMonthlySignals
    rw [hsched]
  refine ⟨hsched, hsig, ?_, ?_, ?_⟩ <;> rw [hsig] <;> split <;> rfl

/-- Witness for C3 (amended): day 31 in April 2026 (30 days), reference
    2026-04-15 10:30:00, configured time 02:00. -/
theorem monthly_invalid_day_behavior_witness :
    daysInMonth 2026 4 < 31 ∧
    (calcNextRunMonthlySched 31 2 0 ⟨2026, 4, 15, 10, 30, 0, 0⟩ = none ∧
      calcNextRunMonthlySignals 31 2 0 ⟨2026, 4, 15, 10, 30, 0, 0⟩ =
        (if (⟨2026, 4, 15, 10, 30, 0, 0⟩ : NaiveDT).month = 12 then
          { (⟨2026, 4, 15, 10, 30, 0, 0⟩ : NaiveDT) with
              year := (⟨2026, 4, 15, 10, 30, 0, 0⟩ : NaiveDT).year + 1,
              month := 1, day := 1 }
        else { (⟨2026, 4, 15, 10, 30, 0, 0⟩ : NaiveDT) with
            month := (⟨2026, 4, 15, 10, 30, 0, 0⟩ : NaiveDT).month + 1,
            day := 1 }) ∧
      (calcNextRunMonthlySignals 31 2 0 ⟨2026, 4, 15, 10, 30, 0, 0⟩).day = 1 ∧
      (calcNextRunMonthlySignals 31 2 0 ⟨2026, 4, 15, 10, 30, 0, 0⟩).hour =
        (⟨2026, 4, 15, 10, 30, 0, 0⟩ : NaiveDT).hour ∧
      (calcNextRunMonthlySignals 31 2 0 ⟨2026, 4, 15, 10, 30, 0, 0⟩).minute =
        (⟨2026, 4, 15, 10, 30, 0, 0⟩ : NaiveDT).minute) :=
  ⟨by decide, monthly_invalid_day_behavior 31 2 0 ⟨2026, 4, 15, 10, 30, 0, 0⟩ (by decide)⟩

/-! ### Collection worker (`backend/devicevault_worker.py`, `device_collect_task`) -/

/-- The fields of the parsed job envelope that `device_collect_task` reads
    (`devicevault_worker.py` lines 87-89 and 163). -/
structure CollectConfig where
  deviceId : Option Int
  taskIdentifier : String
  initiatedAt : String
  backupMethod : String
deriving DecidableEq, Repr

/-- What `plugin.run(plugin_cfg, timeout)` does in one execution: return a
    result dict, hit the Celery soft time limit, or raise. -/
inductive PluginOutcome where
  | returns (status : String) (log : List String) (deviceConfig : Option String)
  | softTimeout
  | raises
deriving DecidableEq, Repr

/-- Environment of one `device_collect_task` execution: whether `json.loads`
    succeeds (lines 81-85), whether the non-blocking per-device lock
    acquisition succeeds (an exception from `lock.acquire` is recorded as a
    failed acquisition, lines 96-101), whether `get_plugin` finds the backup
    method (lines 110-113), what the plugin invocation does, and whether the
    `xadd` publishing the result succeeds (lines 154-169). -/
structure WorkerEnv where
  parseOk : Bool
  lockAvailable : Bool
  pluginKnown : Bool
  outcome : PluginOutcome
  publishOk : Bool
  celeryTaskId : String
  isBinary : Bool
deriving DecidableEq, Repr

/-- One record of Delivery Log A: the payload dict `xadd`-ed to the results
    stream (`devicevault_worker.py` lines 155-165).  The string renderings
    (`str()`, `json.dumps`, base64) are abstracted; the structure records
    exactly the keys of the published dict. -/
structure StreamRecordA where
  task_id : String
  task_identifier : String
  device_id : Option Int
  status : String
  log : List String
  device_config : String
  collection_duration_ms : Int
  initiated_at : String
  is_binary : Bool
deriving DecidableEq, Repr

/-- Observable effects of one `device_collect_task` execution: the returned
    dict's `status` and `log`, the records published to Delivery Log A,
    whether `plugin.run` was invoked, and whether the per-device lock was
    acquired and released. -/
structure WorkerRun where
  retStatus : String
  retLog : List String
  published : List StreamRecordA
  pluginInvoked : Bool
  lockAcquired : Bool
  lockReleased : Bool
deriving DecidableEq, Repr

/-- The log message of the lock-unavailable early return
    (`devicevault_worker.py` line 104). -/
def lockBusyMsg (deviceId : Int) : String :=
  "device " ++ toString deviceId ++ " is currently being collected by another worker"

/-- The body of `device_collect_task` after lock handling
    (`devicevault_worker.py` lines 108-186): unknown backup method raises
    `RuntimeError`, caught by the generic handler (failure return, no
    publish); a returned plugin result is published to the stream — inside
    its own `try`, so an `xadd` failure is swallowed — and returned;
    soft-timeout and unhandled exceptions return failure dicts without
    publishing.  The `finally` block releases the lock iff it was acquired. -/
def collectBody (cfg : CollectConfig) (env : WorkerEnv) (durationMs : Int)
    (lockAcquired : Bool) : WorkerRun :=
  if env.pluginKnown = false then
    { retStatus := "failure", retLog := ["unhandled: unknown backup method: " ++ cfg.backupMethod],
      published := [], pluginInvoked := false,
      lockAcquired := lockAcquired, lockReleased := lockAcquired }
  else
    match env.outcome with
    | PluginOutcome.returns st lg dc =>
      let r : StreamRecordA :=
        { task_id := env.celeryTaskId, task_identifier := cfg.taskIdentifier,
          device_id := cfg.deviceId, status := st, log := lg,
          device_config := dc.getD "", collection_duration_ms := durationMs,
          initiated_at := cfg.initiatedAt, is_binary := env.isBinary }
      { retStatus := st, retLog := lg,
        published := if env.publishOk then [r] else [],
        pluginInvoked := true,
        lockAcquired := lockAcquired, lockReleased := lockAcquired }
    | PluginOutcome.softTimeout =>
      { retStatus := "failure", retLog := ["task_soft_time_limit_exceeded"],
        published := [], pluginInvoked := true,
        lockAcquired := lockAcquired, lockReleased := lockAcquired }
    | PluginOutcome.raises =>
      { retStatus := "failure", retLog := ["unhandled"],
        published := [], pluginInvoked := true,
        lockAcquired := lockAcquired, lockReleased := lockAcquired }

/-- `device_collect_task` (`devicevault_worker.py` lines 65-186).  Control
    paths before the body: invalid JSON config returns a failure dict with no
    lock interaction and no publish (lines 81-85); when `device_id` is set, a
    failed non-blocking lock acquisition returns a failure dict immediately,
    without invoking the plugin and without publishing (lines 91-106); a job
    with no `device_id` skips locking entirely. -/
def deviceCollectTask (cfg : CollectConfig) (env : WorkerEnv)
    (durationMs : Int) : WorkerRun :=
  if env.parseOk = false then
    { retStatus := "failure", retLog := ["invalid_config_json"], published := [],
      pluginInvoked := false, lockAcquired := false, lockReleased := false }
  else
    match cfg.deviceId with
    | some i =>
      if env.lockAvailable = false then
        { retStatus := "failure", retLog := [lockBusyMsg i], published := [],
          pluginInvoked := false, lockAcquired := false, lockReleased := false }
      else collectBody cfg env durationMs true
    | none => collectBody cfg env durationMs false

/-- Counterexample to C4: a collection job whose per-device lock is
    unavailable (a "failure to acquire the per-device lock" outcome) publishes
    *no* record to Delivery Log A — not exactly one as claimed.  The same
    holds on the timeout and exception paths; only a plugin invocation that
    returns a result publishes. -/
theorem collect_publish_counterexample :
    (deviceCollectTask ⟨some 1, "t-1", "", "noop"⟩
      ⟨true, false, true, PluginOutcome.returns "success" [] (some "cfg"), true, "id-1", false⟩
      5).published = [] ∧
    (deviceCollectTask ⟨some 1, "t-1", "", "noop"⟩
      ⟨true, true, true, PluginOutcome.softTimeout, true, "id-1", false⟩
      5).published = [] := by
  constructor <;> rfl

/-- The condition under which one `device_collect_task` execution publishes a
    record to Delivery Log A: the config parsed, the lock was acquired (or no
    `device_id` was given, so no lock was attempted), the plugin is known and
    its invocation *returned a result* (success or failure status alike), and
    the stream append itself succeeded. -/
def publishesToStream (cfg : CollectConfig) (env : WorkerEnv) : Prop :=
  env.parseOk = true ∧ (cfg.deviceId = none ∨ env.lockAvailable = true) ∧
  env.pluginKnown = true ∧
  (∃ st lg dc, env.outcome = PluginOutcome.returns st lg dc) ∧
  env.publishOk = true

/-- C4 as amended: at most one record per execution is ever published to
    Delivery Log A, a record is published precisely when the plugin
    invocation returns a result (success or failure) and the append succeeds
    — on lock-acquisition failure, soft timeout, unhandled exception, unknown
    plugin, or invalid config the outcome is only returned to the Celery
    result backend, with no record published — and every published record
    carries the claimed `task_id`, `task_identifier`, `device_id`,
    `collection_duration_ms` and `initiated_at` fields from the job (the
    record structure also carries `status`, `log`, `device_config` and
    `is_binary`). -/
theorem collect_publish_characterization (cfg : CollectConfig) (env : WorkerEnv)
    (durationMs : Int) :
    (deviceCollectTask cfg env durationMs).published.length ≤ 1 ∧
    ((deviceCollectTask cfg env durationMs).published ≠ [] ↔
      publishesToStream cfg env) ∧
    (∀ r ∈ (deviceCollectTask cfg env durationMs).published,
      r.task_id = env.celeryTaskId ∧ r.task_identifier = cfg.taskIdentifier ∧
      r.device_id = cfg.deviceId ∧ r.collection_duration_ms = durationMs ∧
      r.initiated_at = cfg.initiatedAt) := by
  unfold deviceCollectTask collectBody publishesToStream
  rcases env with ⟨parseOk, lockAvailable, pluginKnown, outcome, publishOk, ctid, bin⟩
  rcases cfg with ⟨deviceId, tid, init, method⟩
  cases parseOk <;> cases lockAvailable <;> cases pluginKnown <;>
    cases publishOk <;> cases outcome <;> cases deviceId <;>
    simp_all

/-- C7: when the per-device lock is already held (the non-blocking
    acquisition fails), `device_collect_task` returns a failure-status dict
    whose log says the device is currently being collected by another worker,
    without invoking the plugin and without publishing anything; and — for
    any environment — the plugin is only ever invoked by an execution that
    acquired the lock (a job with a `device_id` never collects without it).
    The literal status string of the worker result contract is `"failure"`. -/
theorem lock_unavailable_fails_fast (cfg : CollectConfig) (env : WorkerEnv)
    (durationMs : Int) (i : Int)
    (hid : cfg.deviceId = some i) (hparse : env.parseOk = true)
    (hlock : env.lockAvailable = false) :
    (deviceCollectTask cfg env durationMs).retStatus = "failure" ∧
    (deviceCollectTask cfg env durationMs).retLog = [lockBusyMsg i] ∧
    (deviceCollectTask cfg env durationMs).pluginInvoked = false ∧
    (deviceCollectTask cfg env durationMs).published = [] ∧
    (deviceCollectTask cfg env durationMs).lockAcquired = false ∧
    (∀ env2 : WorkerEnv, ∀ d2 : Int,
      (deviceCollectTask cfg env2 d2).pluginInvoked = true →
      (deviceCollectTask cfg env2 d2).lockAcquired = true) := by
  refine ⟨?_, ?_, ?_, ?_, ?_, ?_⟩
  · unfold deviceCollectTask; rw [hid]; simp [hparse, hlock]
  · unfold deviceCollectTask; rw [hid]; simp [hparse, hlock]
  · unfold deviceCollectTask; rw [hid]; simp [hparse, hlock]
  · unfold deviceCollectTask; rw [hid]; simp [hparse, hlock]
  · unfold deviceCollectTask; rw [hid]; simp [hparse, hlock]
  · intro env2 d2
    unfold deviceCollectTask collectBody
    rw [hid]
    rcases env2 with ⟨p2, l2, k2, o2, pub2, c2, b2⟩
    cases p2 <;> cases l2 <;> cases k2 <;> cases o2 <;> simp_all

/-- Witness for C7: device 1, lock already held; the failure is immediate,
    the plugin is not called, nothing is published. -/
theorem lock_unavailable_fails_fast_witness :
    ((⟨some 1, "t-1", "", "noop"⟩ : CollectConfig).deviceId = some 1 ∧
      (⟨true, false, true, PluginOutcome.returns "success" [] none, true, "id", false⟩ : WorkerEnv).parseOk = true ∧
      (⟨true, false, true, PluginOutcome.returns "success" [] none, true, "id", false⟩ : WorkerEnv).lockAvailable = false) ∧
    ((deviceCollectTask ⟨some 1, "t-1", "", "noop"⟩
        ⟨true, false, true, PluginOutcome.returns "success" [] none, true, "id", false⟩ 7).retStatus = "failure" ∧
      (deviceCollectTask ⟨some 1, "t-1", "", "noop"⟩
        ⟨true, false, true, PluginOutcome.returns "success" [] none, true, "id", false⟩ 7).retLog = [lockBusyMsg 1] ∧
      (deviceCollectTask ⟨some 1, "t-1", "", "noop"⟩
        ⟨true, false, true, PluginOutcome.returns "success" [] none, true, "id", false⟩ 7).pluginInvoked = false ∧
      (deviceCollectTask ⟨some 1, "t-1", "", "noop"⟩
        ⟨true, false, true, PluginOutcome.returns "success" [] none, true, "id", false⟩ 7).published = [] ∧
      (deviceCollectTask ⟨some 1, "t-1", "", "noop"⟩
        ⟨true, false, true, PluginOutcome.returns "success" [] none, true, "id", false⟩ 7).lockAcquired = false ∧
      (∀ env2 : WorkerEnv, ∀ d2 : Int,
        (deviceCollectTask ⟨some 1, "t-1", "", "noop"⟩ env2 d2).pluginInvoked = true →
        (deviceCollectTask ⟨some 1, "t-1", "", "noop"⟩ env2 d2).lockAcquired = true)) :=
  ⟨⟨rfl, rfl, rfl⟩,
    lock_unavailable_fails_fast ⟨some 1, "t-1", "", "noop"⟩
      ⟨true, false, true, PluginOutcome.returns "success" [] none, true, "id", false⟩
      7 1 rfl rfl rfl⟩

/-! ### Storage worker publication (`backend/storage/tasks.py`) -/

/-- Rendering of an optional numeric id the way the Python code does with
    `str(... or '')`. -/
def optIdStr : Option Int → String
  | none => ""
  | some i => toString i

/-- Abstraction of `json.dumps` on a list of log lines; only injectivity of
    the rendering matters to the claims, never its exact format. -/
def jsonDumpsLog (l : List String) : String := toString l

/-- The result dict assembled by `storage_store_task` on each of its exit
    paths (`storage/tasks.py` lines 119-212): the same keys every time, with
    `status` equal to `"success"` exactly on the path where the backend
    `store` call returned. -/
structure StorageResult where
  task_id : String
  task_identifier : String
  device_id : Option Int
  storage_backend : String
  storage_ref : String
  status : String
  log : List String
  operation : String
deriving DecidableEq, Repr

/-- `_publish_result` (`storage/tasks.py` lines 63-77): the exact payload
    dict `xadd`-ed to Delivery Log B, as an association list in the source's
    key order. -/
def publishResultPayload (r : StorageResult) : List (String × String) :=
  [("task_id", r.task_id),
   ("task_identifier", r.task_identifier),
   ("device_id", optIdStr r.device_id),
   ("status", r.status),
   ("log", jsonDumpsLog r.log),
   ("storage_backend", r.storage_backend),
   ("storage_ref", r.storage_ref),
   ("operation", if r.operation = "" then "store" else r.operation)]

/-- `data.get(key, '')` on a decoded stream record. -/
def recordGet (kvs : List (String × String)) (k : String) : String :=
  match kvs.find? (fun p => p.1 = k) with
  | some p => p.2
  | none => ""

/-- `data.get('storage_duration_ms') or None` in the storage result ingestor
    (`consume_storage_results.py` line 65): absent key or empty string become
    `None`. -/
def parsedStorageDuration (kvs : List (String × String)) : Option String :=
  if recordGet kvs "storage_duration_ms" = "" then none
  else some (recordGet kvs "storage_duration_ms")

/-- C9 is false on the code: `storage_store_task` never measures a storage
    duration and `_publish_result` publishes exactly the eight keys below —
    `storage_duration_ms` is not among them — so the storage result ingestor's
    `data.get('storage_duration_ms') or None` is always `None` and every
    `StoredBackup` it creates from a worker-published record gets a null
    `storage_duration_ms`.  This contradicts both the spec's record schema and
    the ingestor's own parsing of that key. -/
theorem storage_record_has_no_duration (r : StorageResult) :
    (publishResultPayload r).map Prod.fst =
      ["task_id", "task_identifier", "device_id", "status", "log",
       "storage_backend", "storage_ref", "operation"] ∧
    (publishResultPayload r).find? (fun p => p.1 = "storage_duration_ms") = none ∧
    parsedStorageDuration (publishResultPayload r) = none := by
  refine ⟨rfl, ?_, ?_⟩
  · simp [publishResultPayload, List.find?]
  · simp [parsedStorageDuration, recordGet, publishResultPayload, List.find?]

/-- Witness-style instantiation for C9 at the failing input: a successful
    `fs` store of task `t-1` for device 1. -/
theorem storage_record_has_no_duration_witness :
    parsedStorageDuration (publishResultPayload
      ⟨"celery-1", "t-1", some 1, "fs", "1/t-1.txt", "success",
        ["stored to fs:1/t-1.txt"], "store"⟩) = none :=
  (storage_record_has_no_duration
    ⟨"celery-1", "t-1", some 1, "fs", "1/t-1.txt", "success",
      ["stored to fs:1/t-1.txt"], "store"⟩).2.2

/-! ### Result ingestion
(`consume_device_results.py` and `consume_storage_results.py`)

Each ingestor is an infinite `xreadgroup` loop whose per-message body is pure
given the database state, the device table, the clock and whether the
`objects.create` call succeeds; the embedding models that body as a state
transformer and the loop as a fold.  Numeric and timestamp string parsing is
abstracted to `Option` fields on the decoded message (`none` = absent, empty
or unparseable). -/

/-- A decoded collection outcome message, fields as read in
    `consume_device_results.py` lines 66-73.  `initiatedAtMs` is the parsed
    `initiated_at` in epoch milliseconds. -/
structure CollectionMsg where
  taskId : String
  taskIdentifier : String
  deviceId : Option Int
  status : String
  log : String
  deviceConfig : String
  collectionDurationMs : Option Int
  initiatedAtMs : Option Int
deriving DecidableEq, Repr

/-- A persisted `DeviceBackupResult` row (`devices/models.py` lines 167-190;
    note `task_identifier` is indexed but carries no DB-level uniqueness
    constraint).  Timestamps in epoch milliseconds. -/
structure DBRow where
  task_id : String
  task_identifier : String
  device : Int
  status : String
  timestampMs : Int
  log : String
  initiated_at : Option Int
  collection_duration_ms : Option Int
  overall_duration_ms : Option Int
deriving DecidableEq, Repr

/-- A persisted `StoredBackup` row.  The model class body is not part of the
    sources; the fields are exactly the keyword arguments of the ingestor's
    `StoredBackup.objects.create` call (`consume_storage_results.py` lines
    96-106), matching the spec's data-model entry and migration
    `backups/migrations/0004_storedbacup.py` (which also shows no uniqueness
    constraint on `task_identifier`). -/
structure SBRow where
  task_id : String
  task_identifier : String
  device : Int
  storage_backend : String
  storage_ref : String
  status : String
  timestampMs : Int
  log : String
  storage_duration_ms : Option Int
deriving DecidableEq, Repr

/-- The slice of `BackupLocation` the collection ingestor reads
    (`locations/models.py`): its `location_type`. -/
structure BackupLocation where
  locationType : String
deriving DecidableEq, Repr

/-- The slice of `Device` the ingestors read: primary key and optional
    backup location. -/
structure Dev where
  id : Int
  backupLocation : Option BackupLocation
deriving DecidableEq, Repr

/-- `Command.storage_backend_map` lookup applied to
    `(location.location_type or '').lower()`
    (`consume_device_results.py` lines 19-23 and 167). -/
def storageBackendMap (lt : String) : Option String :=
  if lt.toLower = "git" then some "git"
  else if lt.toLower = "fs" then some "fs"
  else if lt.toLower = "filesystem" then some "fs"
  else none

/-- The storage job payload enqueued for the storage worker
    (`consume_device_results.py` lines 172-181); the opaque
    `storage_config` dict is not modelled. -/
structure StoragePayload where
  taskId : String
  taskIdentifier : String
  deviceId : Int
  storageBackend : String
  deviceConfig : String
deriving DecidableEq, Repr

/-- `Command._enqueue_storage_task` (`consume_device_results.py` lines
    160-192): no payload is sent when the device has no backup location or
    its `location_type` is not in the backend map; otherwise exactly one
    payload goes to queue `storage.<backend>`. -/
def enqueueStorageTask (dev : Dev) (taskId taskIdentifier deviceConfig : String) :
    List StoragePayload :=
  match dev.backupLocation with
  | none => []
  | some loc =>
    match storageBackendMap loc.locationType with
    | none => []
    | some backend =>
      [{ taskId := taskId, taskIdentifier := taskIdentifier, deviceId := dev.id,
         storageBackend := backend, deviceConfig := deviceConfig }]

/-- The two tables written by the ingestors. -/
structure DB where
  results : List DBRow
  stored : List SBRow
deriving DecidableEq, Repr

/-- Which control path of the collection ingestor handled a message.  Every
    constructor corresponds to a path of `Command.handle`
    (`consume_device_results.py` lines 75-155) that calls `r.xack` exactly
    once. -/
inductive CollectOutcome where
  | skipIdempotent
  | dropNoDevice
  | dropUnknownDevice
  | persistFailed
  | persisted
deriving DecidableEq, Repr

/-- Number of `r.xack` calls issued on the control path named by the
    outcome (`consume_device_results.py` lines 77, 89, 94, 100, 150, 155). -/
def ackCount : CollectOutcome → Nat
  | CollectOutcome.skipIdempotent => 1
  | CollectOutcome.dropNoDevice => 1
  | CollectOutcome.dropUnknownDevice => 1
  | CollectOutcome.persistFailed => 1
  | CollectOutcome.persisted => 1

def findDevice (devices : List Dev) (i : Int) : Option Dev :=
  devices.find? (fun d => d.id = i)

/-- `DeviceBackupResult.objects.filter(task_identifier=tid).exists()`. -/
def rowExists (rows : List DBRow) (tid : String) : Bool :=
  rows.any (fun r => r.task_identifier = tid)

/-- One iteration of the collection result ingestor's message loop
    (`consume_device_results.py` lines 59-155): idempotency check first (only
    for a non-empty `task_identifier`), then device resolution, then the
    `DeviceBackupResult` creation — with `overall_duration_ms` computed
    *already at creation* as `now − initiated_at` whenever the message carries
    a parseable `initiated_at` and a `collection_duration_ms` (lines 120-128,
    139) — then, for `status == 'success'`, the storage dispatch.
    `persistOk` says whether the `create` call succeeds; when it raises, the
    handler logs, acknowledges and drops the message (lines 152-155).
    Returns the new database, the outcome path, and the storage payloads
    enqueued. -/
def handleCollectionMsg (devices : List Dev) (nowMs : Int) (persistOk : Bool)
    (db : DB) (m : CollectionMsg) : DB × CollectOutcome × List StoragePayload :=
  if m.taskIdentifier ≠ "" ∧ rowExists db.results m.taskIdentifier then
    (db, CollectOutcome.skipIdempotent, [])
  else
    match m.deviceId with
    | none => (db, CollectOutcome.dropNoDevice, [])
    | some i =>
      match findDevice devices i with
      | none => (db, CollectOutcome.dropUnknownDevice, [])
      | some dev =>
        if persistOk = false then (db, CollectOutcome.persistFailed, [])
        else
          let overall : Option Int :=
            match m.initiatedAtMs, m.collectionDurationMs with
            | some initMs, some _ => some (nowMs - initMs)
            | _, _ => none
          let row : DBRow :=
            { task_id := m.taskId, task_identifier := m.taskIdentifier,
              device := i, status := m.status, timestampMs := nowMs,
              log := m.log, initiated_at := m.initiatedAtMs,
              collection_duration_ms := m.collectionDurationMs,
              overall_duration_ms := overall }
          let payloads :=
            if m.status = "success" then
              enqueueStorageTask dev m.taskId m.taskIdentifier m.deviceConfig
            else []
          ({ db with results := db.results ++ [row] },
            CollectOutcome.persisted, payloads)

/-- The collection ingestor's loop over a batch of delivered messages, in
    order; collects the per-message outcomes and all enqueued storage
    payloads. -/
def runCollectionIngestor (devices : List Dev) (nowMs : Int) (persistOk : Bool) :
    DB → List CollectionMsg → DB × List CollectOutcome × List StoragePayload
  | db, [] => (db, [], [])
  | db, m :: ms =>
    let step := handleCollectionMsg devices nowMs persistOk db m
    let rest := runCollectionIngestor devices nowMs persistOk step.1 ms
    (rest.1, step.2.1 :: rest.2.1, step.2.2 ++ rest.2.2)

/-- A decoded storage outcome message, fields as read in
    `consume_storage_results.py` lines 57-65 (`operation` after its
    `data.get('operation', 'store')` default). -/
structure StorageMsg where
  taskId : String
  taskIdentifier : String
  deviceId : Option Int
  status : String
  log : String
  storageBackend : String
  storageRef : String
  operation : String
  storageDurationMs : Option Int
deriving DecidableEq, Repr

/-- Which control path of the storage ingestor handled a message; every
    constructor is a path of `consume_storage_results.py` lines 51-127 that
    calls `r.xack` exactly once. -/
inductive StorageOutcome where
  | skipNonStore
  | dropNoDevice
  | skipIdempotent
  | dropUnknownDevice
  | persistFailed
  | persisted
deriving DecidableEq, Repr

/-- Number of `r.xack` calls on the path named by the outcome
    (`consume_storage_results.py` lines 68, 74, 79, 89, 93, 123, 127). -/
def sAckCount : StorageOutcome → Nat
  | StorageOutcome.skipNonStore => 1
  | StorageOutcome.dropNoDevice => 1
  | StorageOutcome.skipIdempotent => 1
  | StorageOutcome.dropUnknownDevice => 1
  | StorageOutcome.persistFailed => 1
  | StorageOutcome.persisted => 1

/-- `StoredBackup.objects.filter(task_identifier=tid).exists()`. -/
def sbExists (rows : List SBRow) (tid : String) : Bool :=
  rows.any (fun r => r.task_identifier = tid)

/-- The `overall_duration_ms` back-fill
    (`consume_storage_results.py` lines 108-121):
    `DeviceBackupResult.objects.filter(task_identifier=tid).first()`; when a
    row is found and has `initiated_at`, set
    `overall_duration_ms = now − initiated_at` and save with
    `update_fields=['overall_duration_ms']`, touching no other field;
    otherwise change nothing.  The model takes the first match in list
    order, which coincides with Django's query whenever at most one row
    matches — the invariant the idempotency check maintains. -/
def updateOverall (tid : String) (nowMs : Int) : List DBRow → List DBRow
  | [] => []
  | r :: rs =>
    if r.task_identifier = tid then
      (match r.initiated_at with
       | some initMs => { r with overall_duration_ms := some (nowMs - initMs) }
       | none => r) :: rs
    else r :: updateOverall tid nowMs rs

/-- One iteration of the storage result ingestor's message loop
    (`consume_storage_results.py` lines 51-127): skip non-`store` operations
    (an empty string is *not* skipped, because `if operation and ...` treats
    it as falsy), drop messages with no `device_id`, idempotency check on
    `StoredBackup` (only for non-empty `task_identifier`), device lookup,
    `StoredBackup` creation, and — for non-empty identifier and
    `status == 'success'` — the `overall_duration_ms` back-fill on the
    matching `DeviceBackupResult`.  `persistOk` says whether the `create`
    succeeds; on failure the handler acknowledges and drops (lines 125-127). -/
def handleStorageMsg (devices : List Dev) (nowMs : Int) (persistOk : Bool)
    (db : DB) (m : StorageMsg) : DB × StorageOutcome :=
  if m.operation ≠ "" ∧ m.operation ≠ "store" then (db, StorageOutcome.skipNonStore)
  else
    match m.deviceId with
    | none => (db, StorageOutcome.dropNoDevice)
    | some i =>
      if m.taskIdentifier ≠ "" ∧ sbExists db.stored m.taskIdentifier then
        (db, StorageOutcome.skipIdempotent)
      else
        match findDevice devices i with
        | none => (db, StorageOutcome.dropUnknownDevice)
        | some _ =>
          if persistOk = false then (db, StorageOutcome.persistFailed)
          else
            let row : SBRow :=
              { task_id := m.taskId, task_identifier := m.taskIdentifier,
                device := i, storage_backend := m.storageBackend,
                storage_ref := m.storageRef, status := m.status,
                timestampMs := nowMs, log := m.log,
                storage_duration_ms := m.storageDurationMs }
            let results2 :=
              if m.taskIdentifier ≠ "" ∧ m.status = "success" then
                updateOverall m.taskIdentifier nowMs db.results
              else db.results
            ({ results := results2, stored := db.stored ++ [row] },
              StorageOutcome.persisted)

/-- The storage ingestor's loop over a batch of delivered messages. -/
def runStorageIngestor (devices : List Dev) (nowMs : Int) (persistOk : Bool) :
    DB → List StorageMsg → DB × List StorageOutcome
  | db, [] => (db, [])
  | db, m :: ms =>
    let step := handleStorageMsg devices nowMs persistOk db m
    let rest := runStorageIngestor devices nowMs persistOk step.1 ms
    (rest.1, step.2 :: rest.2)

/-- Number of `DeviceBackupResult` rows persisted for a task identifier. -/
def countResults (db : DB) (tid : String) : Nat :=
  (db.results.filter (fun r => r.task_identifier = tid)).length

/-- Number of `StoredBackup` rows persisted for a task identifier. -/
def countStored (db : DB) (tid : String) : Nat :=
  (db.stored.filter (fun r => r.task_identifier = tid)).length

theorem handleCollectionMsg_skip (devices : List Dev) (nowMs : Int)
    (persistOk : Bool) (db : DB) (m : CollectionMsg)
    (htid : m.taskIdentifier ≠ "")
    (hex : rowExists db.results m.taskIdentifier = true) :
    handleCollectionMsg devices nowMs persistOk db m =
      (db, CollectOutcome.skipIdempotent, []) := by
  unfold handleCollectionMsg
  rw [if_pos ⟨htid, hex⟩]

theorem runCollectionIngestor_skip_replicate (devices : List Dev) (nowMs : Int)
    (persistOk : Bool) (m : CollectionMsg) (htid : m.taskIdentifier ≠ "") :
    ∀ (n : Nat) (db : DB), rowExists db.results m.taskIdentifier = true →
      runCollectionIngestor devices nowMs persistOk db (List.replicate n m) =
        (db, List.replicate n CollectOutcome.skipIdempotent, []) := by
  intro n
  induction n with
  | zero => intro db _; rfl
  | succ k ih =>
    intro db hex
    rw [List.replicate_succ]
    unfold runCollectionIngestor
    rw [handleCollectionMsg_skip devices nowMs persistOk db m htid hex]
    dsimp only
    rw [ih db hex]
    simp [List.replicate_succ]

theorem handleStorageMsg_skip (devices : List Dev) (nowMs : Int)
    (persistOk : Bool) (db : DB) (m : StorageMsg) (i : Int)
    (hop : m.operation = "store") (hid : m.deviceId = some i)
    (htid : m.taskIdentifier ≠ "")
    (hex : sbExists db.stored m.taskIdentifier = true) :
    handleStorageMsg devices nowMs persistOk db m =
      (db, StorageOutcome.skipIdempotent) := by
  unfold handleStorageMsg
  rw [if_neg (by simp [hop]), hid]
  dsimp only
  rw [if_pos (show m.taskIdentifier ≠ "" ∧ sbExists db.stored m.taskIdentifier = true from ⟨htid, hex⟩)]

theorem runStorageIngestor_skip_replicate (devices : List Dev) (nowMs : Int)
    (persistOk : Bool) (m : StorageMsg) (i : Int)
    (hop : m.operation = "store") (hid : m.deviceId = some i)
    (htid : m.taskIdentifier ≠ "") :
    ∀ (n : Nat) (db : DB), sbExists db.stored m.taskIdentifier = true →
      runStorageIngestor devices nowMs persistOk db (List.replicate n m) =
        (db, List.replicate n StorageOutcome.skipIdempotent) := by
  intro n
  induction n with
  | zero => intro db _; rfl
  | succ k ih =>
    intro db hex
    rw [List.replicate_succ]
    unfold runStorageIngestor
    rw [handleStorageMsg_skip devices nowMs persistOk db m i hop hid htid hex]
    dsimp only
    rw [ih db hex]
    simp [List.replicate_succ]

/-- Counterexample to C1: the idempotency check is guarded by
    `if task_identifier and ...`, so for the empty `task_identifier` it is
    skipped, and — `task_identifier` having no uniqueness constraint in the
    model (`devices/models.py` line 177) — delivering the same collection
    outcome message twice persists TWO `DeviceBackupResult` rows, not exactly
    one. -/
theorem ingest_empty_identifier_counterexample :
    countResults
      (runCollectionIngestor [⟨1, none⟩] 1000 true ⟨[], []⟩
        [⟨"a", "", some 1, "failed", "[]", "", none, none⟩,
         ⟨"a", "", some 1, "failed", "[]", "", none, none⟩]).1 "" = 2 := by
  decide

/-- C1 as amended: for every *non-empty* `task_identifier`, delivering the
    same collection outcome message (resp. the same storage outcome message)
    to its ingestor any number of times persists exactly one
    `DeviceBackupResult` (resp. `StoredBackup`) row: the first processing
    creates it, and every later processing takes the acknowledge-and-skip
    idempotency path without touching the database.  (Messages published by
    the workers always carry a non-empty identifier, `devicevault_worker.py`
    line 88, `storage/tasks.py` line 112.) -/
theorem ingest_idempotent_nonempty_identifier
    (devices : List Dev) (nowMs nowMs2 : Int) (db db2 : DB)
    (m : CollectionMsg) (i : Int) (dev : Dev) (n : Nat)
    (sm : StorageMsg) (j : Int) (dev2 : Dev) (k : Nat)
    (htid : m.taskIdentifier ≠ "") (hid : m.deviceId = some i)
    (hdev : findDevice devices i = some dev)
    (hfresh : rowExists db.results m.taskIdentifier = false) (hn : 1 ≤ n)
    (htid2 : sm.taskIdentifier ≠ "") (hop : sm.operation = "store")
    (hid2 : sm.deviceId = some j) (hdev2 : findDevice devices j = some dev2)
    (hfresh2 : sbExists db2.stored sm.taskIdentifier = false) (hk : 1 ≤ k) :
    countResults
        (runCollectionIngestor devices nowMs true db (List.replicate n m)).1
        m.taskIdentifier = 1 ∧
    (runCollectionIngestor devices nowMs true db (List.replicate n m)).2.1 =
      CollectOutcome.persisted ::
        List.replicate (n - 1) CollectOutcome.skipIdempotent ∧
    countStored
        (runStorageIngestor devices nowMs2 true db2 (List.replicate k sm)).1
        sm.taskIdentifier = 1 ∧
    (runStorageIngestor devices nowMs2 true db2 (List.replicate k sm)).2 =
      StorageOutcome.persisted ::
        List.replicate (k - 1) StorageOutcome.skipIdempotent := by
  obtain ⟨n1, rfl⟩ : ∃ n1, n = n1 + 1 := ⟨n - 1, by omega⟩
  obtain ⟨k1, rfl⟩ : ∃ k1, k = k1 + 1 := ⟨k - 1, by omega⟩
  have hfilter0 : db.results.filter (fun r => r.task_identifier = m.taskIdentifier) = [] := by
    rw [List.filter_eq_nil_iff]
    intro r hr
    simp only [decide_eq_true_eq]
    intro hcon
    have : rowExists db.results m.taskIdentifier = true := by
      unfold rowExists
      rw [List.any_eq_true]
      exact ⟨r, hr, by simp [hcon]⟩
    rw [this] at hfresh
    exact absurd hfresh (by simp)
  have hfilter02 : db2.stored.filter (fun r => r.task_identifier = sm.taskIdentifier) = [] := by
    rw [List.filter_eq_nil_iff]
    intro r hr
    simp only [decide_eq_true_eq]
    intro hcon
    have : sbExists db2.stored sm.taskIdentifier = true := by
      unfold sbExists
      rw [List.any_eq_true]
      exact ⟨r, hr, by simp [hcon]⟩
    rw [this] at hfresh2
    exact absurd hfresh2 (by simp)
  -- the first collection delivery persists a row
  have hstep1 : handleCollectionMsg devices nowMs true db m =
      ({ db with results := db.results ++
          [{ task_id := m.taskId, task_identifier := m.taskIdentifier,
             device := i, status := m.status, timestampMs := nowMs,
             log := m.log, initiated_at := m.initiatedAtMs,
             collection_duration_ms := m.collectionDurationMs,
             overall_duration_ms :=
               match m.initiatedAtMs, m.collectionDurationMs with
               | some initMs, some _ => some (nowMs - initMs)
               | _, _ => none }] },
        CollectOutcome.persisted,
        if m.status = "success" then
          enqueueStorageTask dev m.taskId m.taskIdentifier m.deviceConfig
        else []) := by
    unfold handleCollectionMsg
    rw [if_neg (by simp [hfresh]), hid]
    dsimp only
    rw [hdev]
    rfl
  have hstep2 : handleStorageMsg devices nowMs2 true db2 sm =
      ({ results :=
          if sm.taskIdentifier ≠ "" ∧ sm.status = "success" then
            updateOverall sm.taskIdentifier nowMs2 db2.results
          else db2.results,
         stored := db2.stored ++
          [{ task_id := sm.taskId, task_identifier := sm.taskIdentifier,
             device := j, storage_backend := sm.storageBackend,
             storage_ref := sm.storageRef, status := sm.status,
             timestampMs := nowMs2, log := sm.log,
             storage_duration_ms := sm.storageDurationMs }] },
        StorageOutcome.persisted) := by
    unfold handleStorageMsg
    rw [if_neg (by simp [hop]), hid2]
    dsimp only
    rw [if_neg (by simp [hfresh2])]
    rw [hdev2]
    rfl
  rw [List.replicate_succ]
  constructor
  · unfold runCollectionIngestor
    rw [hstep1]
    dsimp only
    rw [runCollectionIngestor_skip_replicate devices nowMs true m htid n1 _
      (by unfold rowExists; simp)]
    unfold countResults
    simp [List.filter_append, hfilter0]
  constructor
  · unfold runCollectionIngestor
    rw [hstep1]
    dsimp only
    rw [runCollectionIngestor_skip_replicate devices nowMs true m htid n1 _
      (by unfold rowExists; simp)]
    simp
  · rw [List.replicate_succ]
    constructor
    · unfold runStorageIngestor
      rw [hstep2]
      dsimp only
      rw [runStorageIngestor_skip_replicate devices nowMs2 true sm j hop hid2 htid2 k1 _
        (by unfold sbExists; simp)]
      unfold countStored
      simp [List.filter_append, hfilter02]
    · unfold runStorageIngestor
      rw [hstep2]
      dsimp only
      rw [runStorageIngestor_skip_replicate devices nowMs2 true sm j hop hid2 htid2 k1 _
        (by unfold sbExists; simp)]
      simp

/-- Witness for C1 (amended): three deliveries of one collection message and
    three of one storage message, each with identifier `"t-1"`, from an empty
    database and a device table containing device 1. -/
theorem ingest_idempotent_nonempty_identifier_witness :
    countResults
        (runCollectionIngestor [⟨1, none⟩] 1000 true ⟨[], []⟩
          (List.replicate 3 ⟨"a", "t-1", some 1, "failed", "[]", "", none, none⟩)).1
        "t-1" = 1 ∧
    (runCollectionIngestor [⟨1, none⟩] 1000 true ⟨[], []⟩
        (List.replicate 3 ⟨"a", "t-1", some 1, "failed", "[]", "", none, none⟩)).2.1 =
      CollectOutcome.persisted ::
        List.replicate 2 CollectOutcome.skipIdempotent ∧
    countStored
        (runStorageIngestor [⟨1, none⟩] 2000 true ⟨[], []⟩
          (List.replicate 3 ⟨"a", "t-1", some 1, "success", "[]", "git", "ref", "store", none⟩)).1
        "t-1" = 1 ∧
    (runStorageIngestor [⟨1, none⟩] 2000 true ⟨[], []⟩
        (List.replicate 3 ⟨"a", "t-1", some 1, "success", "[]", "git", "ref", "store", none⟩)).2 =
      StorageOutcome.persisted ::
        List.replicate 2 StorageOutcome.skipIdempotent := by
  have h := ingest_idempotent_nonempty_identifier [⟨1, none⟩] 1000 2000 ⟨[], []⟩ ⟨[], []⟩
    ⟨"a", "t-1", some 1, "failed", "[]", "", none, none⟩ 1 ⟨1, none⟩ 3
    ⟨"a", "t-1", some 1, "success", "[]", "git", "ref", "store", none⟩ 1 ⟨1, none⟩ 3
    (by decide) rfl (by decide) (by decide) (by decide)
    (by decide) rfl rfl (by decide) (by decide) (by decide)
  exact h

/-- Equality of every `DeviceBackupResult` field except `overall_duration_ms`. -/
def sameExceptOverall (r s : DBRow) : Prop :=
  s.task_id = r.task_id ∧ s.task_identifier = r.task_identifier ∧
  s.device = r.device ∧ s.status = r.status ∧ s.timestampMs = r.timestampMs ∧
  s.log = r.log ∧ s.initiated_at = r.initiated_at ∧
  s.collection_duration_ms = r.collection_duration_ms

theorem sameExceptOverall_refl (r : DBRow) : sameExceptOverall r r :=
  ⟨rfl, rfl, rfl, rfl, rfl, rfl, rfl, rfl⟩

/-- The `overall_duration_ms` back-fill rewrites each row to one that agrees
    on every other field, and changes `overall_duration_ms` only on a row
    whose `task_identifier` matches, whose `initiated_at` is non-null, and
    then precisely to `now − initiated_at`. -/
theorem updateOverall_frame (tid : String) (nowMs : Int) (rows : List DBRow) :
    List.Forall₂ (fun r s => sameExceptOverall r s ∧
      (s.overall_duration_ms ≠ r.overall_duration_ms →
        r.task_identifier = tid ∧ ∃ i0, r.initiated_at = some i0 ∧
          s.overall_duration_ms = some (nowMs - i0)))
      rows (updateOverall tid nowMs rows) := by
  induction rows with
  | nil => exact List.Forall₂.nil
  | cons r rs ih =>
    obtain ⟨t1, t2, t3, t4, t5, t6, ini, cd, ov⟩ := r
    unfold updateOverall
    split
    · rename_i hmatch
      cases ini with
      | none =>
        refine List.Forall₂.cons ⟨sameExceptOverall_refl _, fun hcon => absurd rfl hcon⟩ ?_
        rw [List.forall₂_same]
        intro x _
        exact ⟨sameExceptOverall_refl x, fun hcon => absurd rfl hcon⟩
      | some i0 =>
        refine List.Forall₂.cons
          ⟨⟨rfl, rfl, rfl, rfl, rfl, rfl, rfl, rfl⟩,
            fun _ => ⟨hmatch, i0, rfl, rfl⟩⟩ ?_
        rw [List.forall₂_same]
        intro x _
        exact ⟨sameExceptOverall_refl x, fun hcon => absurd rfl hcon⟩
    · exact List.Forall₂.cons
        ⟨sameExceptOverall_refl _, fun hcon => absurd rfl hcon⟩ ih

/-- Positive characterization of the `overall_duration_ms` back-fill: when
    the results table is `pre ++ r0 :: post` with `r0` the first row matching
    the task identifier and carrying a non-null `initiated_at`, the update
    rewrites exactly that row, to `now − initiated_at`. -/
theorem updateOverall_eq (tid : String) (nowMs : Int) (r0 : DBRow) (i0 : Int)
    (hr0 : r0.task_identifier = tid) (hinit : r0.initiated_at = some i0) :
    ∀ (pre post : List DBRow), (∀ r ∈ pre, r.task_identifier ≠ tid) →
      updateOverall tid nowMs (pre ++ r0 :: post) =
        pre ++ { r0 with overall_duration_ms := some (nowMs - i0) } :: post := by
  intro pre
  induction pre with
  | nil =>
    intro post hpre
    rw [List.nil_append, List.nil_append]
    unfold updateOverall
    rw [if_pos hr0, hinit]
  | cons p ps ih =>
    intro post hpre
    rw [List.cons_append]
    unfold updateOverall
    rw [if_neg (hpre p (List.mem_cons_self p ps))]
    rw [ih post (fun r hr => hpre r (List.mem_cons_of_mem p hr))]
    rw [List.cons_append]

/-- Counterexample to C2: a collection outcome message that carries a
    parseable `initiated_at` (epoch ms 100) and a `collection_duration_ms`
    (5), ingested at `now` = epoch ms 1100, creates its `DeviceBackupResult`
    with `overall_duration_ms = 1000` already set — not null at creation as
    the claim states (`consume_device_results.py` lines 120-128, 139). -/
theorem overall_duration_at_creation_counterexample :
    ((handleCollectionMsg [⟨1, none⟩] 1100 true ⟨[], []⟩
        ⟨"a", "t-1", some 1, "failed", "[]", "", some 5, some 100⟩).1.results.map
      (fun r => r.overall_duration_ms)) = [some 1000] := by
  decide

/-- C2 as amended: (creation) the collection ingestor creates the
    `DeviceBackupResult` with `overall_duration_ms` null *unless* the message
    itself carries both a parseable `initiated_at` and a
    `collection_duration_ms`, in which case it is already set to
    `now − initiated_at` at creation; (back-fill) on a storage outcome
    message with `status == 'success'` that reaches persistence, the storage
    ingestor really does re-set the matching row's `overall_duration_ms` to
    `now − initiated_at` (when that row's `initiated_at` is non-null),
    leaving every other row untouched; (frame) no storage message ever
    changes any other `DeviceBackupResult` field, and a change to
    `overall_duration_ms` only ever happens under those conditions and to
    that value; (append-only) the collection ingestor never rewrites
    existing rows. -/
theorem overall_duration_policy
    (devices : List Dev) (nowMs : Int) (db : DB) (m : CollectionMsg)
    (i : Int) (dev : Dev)
    (hid : m.deviceId = some i) (hdev : findDevice devices i = some dev)
    (hskip : ¬(m.taskIdentifier ≠ "" ∧ rowExists db.results m.taskIdentifier = true)) :
    (∃ row : DBRow,
      (handleCollectionMsg devices nowMs true db m).1.results =
        db.results ++ [row] ∧
      (m.initiatedAtMs = none ∨ m.collectionDurationMs = none →
        row.overall_duration_ms = none) ∧
      (∀ i0 d0, m.initiatedAtMs = some i0 → m.collectionDurationMs = some d0 →
        row.overall_duration_ms = some (nowMs - i0))) ∧
    (∀ (devices2 : List Dev) (nowMs2 : Int) (db2 : DB) (sm : StorageMsg)
        (j : Int) (dev2 : Dev) (pre post : List DBRow) (r0 : DBRow) (i0 : Int),
      sm.operation = "store" → sm.deviceId = some j →
      findDevice devices2 j = some dev2 →
      sbExists db2.stored sm.taskIdentifier = false →
      sm.status = "success" → sm.taskIdentifier ≠ "" →
      db2.results = pre ++ r0 :: post →
      (∀ r ∈ pre, r.task_identifier ≠ sm.taskIdentifier) →
      r0.task_identifier = sm.taskIdentifier →
      r0.initiated_at = some i0 →
      (handleStorageMsg devices2 nowMs2 true db2 sm).1.results =
        pre ++ { r0 with overall_duration_ms := some (nowMs2 - i0) } :: post) ∧
    (∀ (devices2 : List Dev) (nowMs2 : Int) (persistOk2 : Bool) (db2 : DB)
        (sm : StorageMsg),
      List.Forall₂ (fun r s => sameExceptOverall r s ∧
        (s.overall_duration_ms ≠ r.overall_duration_ms →
          sm.status = "success" ∧ r.task_identifier = sm.taskIdentifier ∧
          ∃ i0, r.initiated_at = some i0 ∧
            s.overall_duration_ms = some (nowMs2 - i0)))
        db2.results (handleStorageMsg devices2 nowMs2 persistOk2 db2 sm).1.results) ∧
    (∀ (devices3 : List Dev) (nowMs3 : Int) (persistOk3 : Bool) (db3 : DB)
        (m3 : CollectionMsg),
      ∃ ext, (handleCollectionMsg devices3 nowMs3 persistOk3 db3 m3).1.results =
        db3.results ++ ext) := by
  refine ⟨?_, ?_, ?_, ?_⟩
  · have hstep : (handleCollectionMsg devices nowMs true db m).1.results =
        db.results ++
          [{ task_id := m.taskId, task_identifier := m.taskIdentifier,
             device := i, status := m.status, timestampMs := nowMs,
             log := m.log, initiated_at := m.initiatedAtMs,
             collection_duration_ms := m.collectionDurationMs,
             overall_duration_ms :=
               match m.initiatedAtMs, m.collectionDurationMs with
               | some initMs, some _ => some (nowMs - initMs)
               | _, _ => none }] := by
      unfold handleCollectionMsg
      rw [if_neg hskip, hid]
      dsimp only
      rw [hdev]
      rfl
    refine ⟨_, hstep, ?_, ?_⟩
    · intro hnone
      rcases hnone with hnone | hnone
      · rw [hnone]
      · rw [hnone]
        cases m.initiatedAtMs <;> rfl
    · intro i0 d0 hi0 hd0
      rw [hi0, hd0]
  · intro devices2 nowMs2 db2 sm j dev2 pre post r0 i0
    intro hop hid2 hdev2 hnoex hst htid hdb hpre hr0 hinit
    unfold handleStorageMsg
    rw [if_neg (by simp [hop]), hid2]
    dsimp only
    rw [if_neg (by simp [hnoex])]
    rw [hdev2]
    dsimp only
    rw [if_pos (show sm.taskIdentifier ≠ "" ∧ sm.status = "success" from ⟨htid, hst⟩)]
    rw [hdb]
    exact updateOverall_eq sm.taskIdentifier nowMs2 r0 i0 hr0 hinit pre post hpre
  · intro devices2 nowMs2 persistOk2 db2 sm
    unfold handleStorageMsg
    have hsame : List.Forall₂ (fun r s => sameExceptOverall r s ∧
        (s.overall_duration_ms ≠ r.overall_duration_ms →
          sm.status = "success" ∧ r.task_identifier = sm.taskIdentifier ∧
          ∃ i0, r.initiated_at = some i0 ∧
            s.overall_duration_ms = some (nowMs2 - i0)))
        db2.results db2.results := by
      rw [List.forall₂_same]
      intro x _
      exact ⟨sameExceptOverall_refl x, fun hcon => absurd rfl hcon⟩
    split
    · exact hsame
    · split
      · exact hsame
      · split
        · exact hsame
        · split
          · exact hsame
          · split
            · exact hsame
            · dsimp only
              by_cases hcond : sm.taskIdentifier ≠ "" ∧ sm.status = "success"
              · rw [if_pos hcond]
                refine List.Forall₂.imp ?_
                  (updateOverall_frame sm.taskIdentifier nowMs2 db2.results)
                intro r s hr
                exact ⟨hr.1, fun hne =>
                  ⟨hcond.2, (hr.2 hne).1, (hr.2 hne).2⟩⟩
              · rw [if_neg hcond]
                exact hsame
  · intro devices3 nowMs3 persistOk3 db3 m3
    unfold handleCollectionMsg
    split
    · exact ⟨[], by simp⟩
    · split
      · exact ⟨[], by simp⟩
      · split
        · exact ⟨[], by simp⟩
        · split
          · exact ⟨[], by simp⟩
          · exact ⟨_, rfl⟩

/-- Witness for C2 (amended): device 1, a collection message with
    `initiated_at` 100 ms and duration 5 ms ingested at 1100 ms (creation
    part), followed by a successful storage outcome for the same identifier
    ingested at 5000 ms, which re-sets the stored row's
    `overall_duration_ms` to `5000 − 100 = 4900` (back-fill part). -/
theorem overall_duration_policy_witness :
    ((⟨"a", "t-1", some 1, "failed", "[]", "", some 5, some 100⟩ : CollectionMsg).deviceId = some 1 ∧
      findDevice [⟨1, none⟩] 1 = some ⟨1, none⟩ ∧
      ¬((⟨"a", "t-1", some 1, "failed", "[]", "", some 5, some 100⟩ : CollectionMsg).taskIdentifier ≠ "" ∧
        rowExists (⟨[], []⟩ : DB).results
          (⟨"a", "t-1", some 1, "failed", "[]", "", some 5, some 100⟩ : CollectionMsg).taskIdentifier = true)) ∧
    (∃ row : DBRow,
      (handleCollectionMsg [⟨1, none⟩] 1100 true ⟨[], []⟩
          ⟨"a", "t-1", some 1, "failed", "[]", "", some 5, some 100⟩).1.results =
        (⟨[], []⟩ : DB).results ++ [row] ∧
      ((⟨"a", "t-1", some 1, "failed", "[]", "", some 5, some 100⟩ : CollectionMsg).initiatedAtMs = none ∨
        (⟨"a", "t-1", some 1, "failed", "[]", "", some 5, some 100⟩ : CollectionMsg).collectionDurationMs = none →
        row.overall_duration_ms = none) ∧
      (∀ i0 d0,
        (⟨"a", "t-1", some 1, "failed", "[]", "", some 5, some 100⟩ : CollectionMsg).initiatedAtMs = some i0 →
        (⟨"a", "t-1", some 1, "failed", "[]", "", some 5, some 100⟩ : CollectionMsg).collectionDurationMs = some d0 →
        row.overall_duration_ms = some (1100 - i0))) ∧
    (handleStorageMsg [⟨1, none⟩] 5000 true
        ⟨[⟨"a", "t-1", 1, "success", 1100, "[]", some 100, some 5, some 1000⟩], []⟩
        ⟨"b", "t-1", some 1, "success", "[]", "git", "ref", "store", none⟩).1.results =
      [] ++ { (⟨"a", "t-1", 1, "success", 1100, "[]", some 100, some 5, some 1000⟩ : DBRow) with
          overall_duration_ms := some (5000 - 100) } :: [] :=
  ⟨⟨rfl, rfl, by decide⟩,
    (overall_duration_policy [⟨1, none⟩] 1100 ⟨[], []⟩
      ⟨"a", "t-1", some 1, "failed", "[]", "", some 5, some 100⟩ 1 ⟨1, none⟩
      rfl rfl (by decide)).1,
    (overall_duration_policy [⟨1, none⟩] 1100 ⟨[], []⟩
      ⟨"a", "t-1", some 1, "failed", "[]", "", some 5, some 100⟩ 1 ⟨1, none⟩
      rfl rfl (by decide)).2.1
      [⟨1, none⟩] 5000
      ⟨[⟨"a", "t-1", 1, "success", 1100, "[]", some 100, some 5, some 1000⟩], []⟩
      ⟨"b", "t-1", some 1, "success", "[]", "git", "ref", "store", none⟩
      1 ⟨1, none⟩ [] [] ⟨"a", "t-1", 1, "success", 1100, "[]", some 100, some 5, some 1000⟩ 100
      rfl rfl rfl rfl rfl (by decide) rfl (by simp) rfl rfl⟩

/-- C8: a successful collection outcome for a device with no configured
    backup location — or one whose `location_type` is not a supported backend
    — creates a `DeviceBackupResult` with the message's `success` status,
    enqueues no storage job, and consequently the composed pipeline (storage
    worker runs exactly the enqueued jobs, each execution appending records to
    Delivery Log B, here generalized to any number of deliveries per job)
    never creates a `StoredBackup` row. -/
theorem success_without_location_no_stored_backup
    (devices : List Dev) (nowMs nowMs2 : Int)
    (deliveries : StoragePayload → List StorageMsg)
    (m : CollectionMsg) (i : Int) (dev : Dev)
    (hid : m.deviceId = some i) (hdev : findDevice devices i = some dev)
    (hloc : dev.backupLocation = none ∨
      ∃ loc, dev.backupLocation = some loc ∧
        storageBackendMap loc.locationType = none)
    (hst : m.status = "success") :
    countResults (runCollectionIngestor devices nowMs true ⟨[], []⟩ [m]).1
      m.taskIdentifier = 1 ∧
    (∀ r ∈ (runCollectionIngestor devices nowMs true ⟨[], []⟩ [m]).1.results,
      r.status = "success") ∧
    (runCollectionIngestor devices nowMs true ⟨[], []⟩ [m]).2.2 = [] ∧
    (runStorageIngestor devices nowMs2 true
        (runCollectionIngestor devices nowMs true ⟨[], []⟩ [m]).1
        (((runCollectionIngestor devices nowMs true ⟨[], []⟩ [m]).2.2).flatMap
          deliveries)).1.stored = [] := by
  have hpay : enqueueStorageTask dev m.taskId m.taskIdentifier m.deviceConfig = [] := by
    rcases hloc with h | ⟨loc, hl, hmap⟩
    · unfold enqueueStorageTask
      rw [h]
    · unfold enqueueStorageTask
      rw [hl]
      dsimp only
      rw [hmap]
  have hstep : handleCollectionMsg devices nowMs true ⟨[], []⟩ m =
      ({ results :=
          [{ task_id := m.taskId, task_identifier := m.taskIdentifier,
             device := i, status := m.status, timestampMs := nowMs,
             log := m.log, initiated_at := m.initiatedAtMs,
             collection_duration_ms := m.collectionDurationMs,
             overall_duration_ms :=
               match m.initiatedAtMs, m.collectionDurationMs with
               | some initMs, some _ => some (nowMs - initMs)
               | _, _ => none }],
         stored := [] },
        CollectOutcome.persisted, []) := by
    unfold handleCollectionMsg
    rw [if_neg (by simp [rowExists]), hid]
    dsimp only
    rw [hdev]
    simp [hst, hpay]
  have hrun : runCollectionIngestor devices nowMs true ⟨[], []⟩ [m] =
      ((handleCollectionMsg devices nowMs true ⟨[], []⟩ m).1,
        [(handleCollectionMsg devices nowMs true ⟨[], []⟩ m).2.1],
        (handleCollectionMsg devices nowMs true ⟨[], []⟩ m).2.2 ++ []) := by
    rfl
  rw [hrun, hstep]
  refine ⟨?_, ?_, rfl, rfl⟩
  · unfold countResults
    simp
  · intro r hr
    simp only [List.mem_singleton] at hr
    rw [hr, hst]

/-- Witness for C8: device 1 with no backup location, a successful collection
    message with identifier `t-1`. -/
theorem success_without_location_no_stored_backup_witness :
    ((⟨"a", "t-1", some 1, "success", "[]", "cfg", none, none⟩ : CollectionMsg).deviceId = some 1 ∧
      findDevice [⟨1, none⟩] 1 = some ⟨1, none⟩ ∧
      ((⟨1, none⟩ : Dev).backupLocation = none ∨
        ∃ loc, (⟨1, none⟩ : Dev).backupLocation = some loc ∧
          storageBackendMap loc.locationType = none) ∧
      (⟨"a", "t-1", some 1, "success", "[]", "cfg", none, none⟩ : CollectionMsg).status = "success") ∧
    (countResults
        (runCollectionIngestor [⟨1, none⟩] 1000 true ⟨[], []⟩
          [⟨"a", "t-1", some 1, "success", "[]", "cfg", none, none⟩]).1
        (⟨"a", "t-1", some 1, "success", "[]", "cfg", none, none⟩ : CollectionMsg).taskIdentifier = 1 ∧
      (∀ r ∈ (runCollectionIngestor [⟨1, none⟩] 1000 true ⟨[], []⟩
          [⟨"a", "t-1", some 1, "success", "[]", "cfg", none, none⟩]).1.results,
        r.status = "success") ∧
      (runCollectionIngestor [⟨1, none⟩] 1000 true ⟨[], []⟩
          [⟨"a", "t-1", some 1, "success", "[]", "cfg", none, none⟩]).2.2 = [] ∧
      (runStorageIngestor [⟨1, none⟩] 2000 true
          (runCollectionIngestor [⟨1, none⟩] 1000 true ⟨[], []⟩
            [⟨"a", "t-1", some 1, "success", "[]", "cfg", none, none⟩]).1
          (((runCollectionIngestor [⟨1, none⟩] 1000 true ⟨[], []⟩
            [⟨"a", "t-1", some 1, "success", "[]", "cfg", none, none⟩]).2.2).flatMap
            (fun _ => []))).1.stored = []) :=
  ⟨⟨rfl, rfl, Or.inl rfl, rfl⟩,
    success_without_location_no_stored_backup [⟨1, none⟩] 1000 2000 (fun _ => [])
      ⟨"a", "t-1", some 1, "success", "[]", "cfg", none, none⟩ 1 ⟨1, none⟩
      rfl rfl (Or.inl rfl) rfl⟩

theorem ackCount_eq_one (o : CollectOutcome) : ackCount o = 1 := by
  cases o <;> rfl

/-- C10: the collection result ingestor acknowledges every message exactly
    once on every control path — idempotent duplicate, missing or unknown
    device, successful persistence, and a `DeviceBackupResult.objects.create`
    that raises — so over a whole batch the number of acknowledgments equals
    the number of delivered messages; and when persistence fails the message
    is still acknowledged while no row and no storage job are produced, i.e.
    that outcome is permanently dropped rather than retried. -/
theorem collection_ingestor_always_acks
    (devices : List Dev) (nowMs : Int) (persistOk : Bool) (db : DB)
    (m : CollectionMsg) (msgs : List CollectionMsg) :
    ackCount (handleCollectionMsg devices nowMs persistOk db m).2.1 = 1 ∧
    (persistOk = false →
      (handleCollectionMsg devices nowMs persistOk db m).1 = db ∧
      (handleCollectionMsg devices nowMs persistOk db m).2.2 = []) ∧
    ((runCollectionIngestor devices nowMs persistOk db msgs).2.1.map
      ackCount).sum = msgs.length := by
  have hlen : ∀ (ms : List CollectionMsg) (db0 : DB),
      (runCollectionIngestor devices nowMs persistOk db0 ms).2.1.length =
        ms.length := by
    intro ms
    induction ms with
    | nil => intro db0; rfl
    | cons a as ih =>
      intro db0
      unfold runCollectionIngestor
      dsimp only
      rw [List.length_cons, ih]
      rfl
  have hsum : ∀ l : List CollectOutcome, (l.map ackCount).sum = l.length := by
    intro l
    induction l with
    | nil => rfl
    | cons a as ih => simp [ackCount_eq_one, ih, Nat.add_comm]
  refine ⟨ackCount_eq_one _, ?_, by rw [hsum, hlen]⟩
  intro h
  subst h
  unfold handleCollectionMsg
  split
  · exact ⟨rfl, rfl⟩
  · split
    · exact ⟨rfl, rfl⟩
    · split
      · exact ⟨rfl, rfl⟩
      · simp

/-- Witness for C10: device table with device 1, a failing `create`
    (`persistOk = false`), one concrete message and a two-message batch. -/
theorem collection_ingestor_always_acks_witness :
    ackCount (handleCollectionMsg [⟨1, none⟩] 0 false ⟨[], []⟩
      ⟨"a", "t-9", some 1, "success", "[]", "", none, none⟩).2.1 = 1 ∧
    (false = false →
      (handleCollectionMsg [⟨1, none⟩] 0 false ⟨[], []⟩
        ⟨"a", "t-9", some 1, "success", "[]", "", none, none⟩).1 = ⟨[], []⟩ ∧
      (handleCollectionMsg [⟨1, none⟩] 0 false ⟨[], []⟩
        ⟨"a", "t-9", some 1, "success", "[]", "", none, none⟩).2.2 = []) ∧
    ((runCollectionIngestor [⟨1, none⟩] 0 false ⟨[], []⟩
        [⟨"a", "t-9", some 1, "success", "[]", "", none, none⟩,
         ⟨"b", "t-9", none, "failed", "[]", "", none, none⟩]).2.1.map
      ackCount).sum =
      [(⟨"a", "t-9", some 1, "success", "[]", "", none, none⟩ : CollectionMsg),
       ⟨"b", "t-9", none, "failed", "[]", "", none, none⟩].length :=
  collection_ingestor_always_acks [⟨1, none⟩] 0 false ⟨[], []⟩
    ⟨"a", "t-9", some 1, "success", "[]", "", none, none⟩
    [⟨"a", "t-9", some 1, "success", "[]", "", none, none⟩,
     ⟨"b", "t-9", none, "failed", "[]", "", none, none⟩]

/-! ### Startup catch-up (`SchedulerDaemon.process_missed_backups`)

The walk enumerates recurrence instants between `last_tick` and `now` for one
enabled daily schedule, dispatching the recent ones and recording the old ones
as `missed_window`, with a 365-day safety break.  Instants are UTC epoch
seconds; the display timezone is the fixed offset `off`. -/

theorem calcNextRunDaily_gt (hour minute : Nat) (tl : Int) :
    tl < calcNextRunDaily hour minute tl := by
  simp only [calcNextRunDaily, dailyTarget, dayIndex, secPerDay]
  split_ifs with hif <;> omega

theorem calcNextRunDaily_mod (hour minute : Nat) (hh : hour < 24)
    (hm : minute < 60) (tl : Int) :
    (calcNextRunDaily hour minute tl) % 86400 =
      3600 * (hour : Int) + 60 * (minute : Int) := by
  have hhI : (hour : Int) < 24 := by exact_mod_cast hh
  have hmI : (minute : Int) < 60 := by exact_mod_cast hm
  simp only [calcNextRunDaily, dailyTarget, dayIndex, secPerDay]
  split_ifs with hif <;> omega

theorem calcNextRunDaily_min (hour minute : Nat) (hh : hour < 24)
    (hm : minute < 60) (tl u : Int)
    (hu : u % 86400 = 3600 * (hour : Int) + 60 * (minute : Int))
    (hlt : tl < u) :
    calcNextRunDaily hour minute tl ≤ u := by
  have hhI : (hour : Int) < 24 := by exact_mod_cast hh
  have hmI : (minute : Int) < 60 := by exact_mod_cast hm
  simp only [calcNextRunDaily, dailyTarget, dayIndex, secPerDay]
  split_ifs with hif <;> omega

/-- The schedule-type dispatch of `calculate_next_run` restricted to the
    types whose computation cannot raise: `daily`, `weekly`, and the
    custom/unknown fallback (which runs the daily computation after a
    warning, `scheduler.py` lines 241-251).  The `monthly` branch manipulates
    calendar fields and can raise `ValueError` (see `calcNextRunMonthlySched`
    and `monthlyCatchupAborts` below), so it has no total counterpart in the
    epoch-second model. -/
inductive ScheduleSec where
  | daily (hour minute : Nat)
  | weekly (dayOfWeek : Int) (hour minute : Nat)
  | custom (hour minute : Nat)
deriving DecidableEq, Repr

/-- Weekly branch of `SchedulerDaemon.calculate_next_run`
    (`backups/scheduler.py` lines 208-223) in the epoch-second encoding:
    `current_dow = (current_display.weekday() + 1) % 7` with Sunday = 0
    (epoch day 0, 1970-01-01, is a Thursday, so `weekday() = (dayIndex + 3) % 7`
    with Monday = 0); `days_ahead = (day_of_week - current_dow) % 7`; the
    target time of day plus `days_ahead` days; and a 7-day roll when
    `days_ahead == 0` and the time has already passed today. -/
def calcNextRunWeekly (dayOfWeek : Int) (hour minute : Nat) (tl : Int) : Int :=
  let currentDow := ((dayIndex tl + 3) % 7 + 1) % 7
  let daysAhead := (dayOfWeek - currentDow) % 7
  let nr := dailyTarget hour minute tl + daysAhead * 86400
  if daysAhead = 0 ∧ nr ≤ tl then nr + 7 * 86400 else nr

/-- `SchedulerDaemon.calculate_next_run`, dispatching on `schedule_type`,
    for the three non-raising schedule types. -/
def calcNextRunSec : ScheduleSec → Int → Int
  | ScheduleSec.daily h m, tl => calcNextRunDaily h m tl
  | ScheduleSec.weekly dow h m, tl => calcNextRunWeekly dow h m tl
  | ScheduleSec.custom h m, tl => calcNextRunDaily h m tl

/-- Validity of the configured time fields (`hour` 0-23, `minute` 0-59). -/
def scheduleValid : ScheduleSec → Prop
  | ScheduleSec.daily h m => h < 24 ∧ m < 60
  | ScheduleSec.weekly _ h m => h < 24 ∧ m < 60
  | ScheduleSec.custom h m => h < 24 ∧ m < 60

/-- Whether a naive local instant `x` is a recurrence instant of the
    schedule: the configured time of day, and for weekly also the configured
    day of week (Sunday = 0, computed as `(weekday + 1) % 7`). -/
def recurLocal : ScheduleSec → Int → Bool
  | ScheduleSec.daily h m, x =>
      x % 86400 == 3600 * (h : Int) + 60 * (m : Int)
  | ScheduleSec.weekly dow h m, x =>
      (((dayIndex x + 3) % 7 + 1) % 7 == dow % 7) &&
        (x % 86400 == 3600 * (h : Int) + 60 * (m : Int))
  | ScheduleSec.custom h m, x =>
      x % 86400 == 3600 * (h : Int) + 60 * (m : Int)

theorem calcNextRunWeekly_gt (dayOfWeek : Int) (hour minute : Nat) (tl : Int) :
    tl < calcNextRunWeekly dayOfWeek hour minute tl := by
  simp only [calcNextRunWeekly, dailyTarget, dayIndex, secPerDay]
  split_ifs with hif <;> omega

theorem calcNextRunWeekly_spec (dayOfWeek : Int) (hour minute : Nat)
    (hh : hour < 24) (hm : minute < 60) (tl : Int) :
    ((dayIndex (calcNextRunWeekly dayOfWeek hour minute tl) + 3) % 7 + 1) % 7 =
      dayOfWeek % 7 ∧
    (calcNextRunWeekly dayOfWeek hour minute tl) % 86400 =
      3600 * (hour : Int) + 60 * (minute : Int) := by
  have hhI : (hour : Int) < 24 := by exact_mod_cast hh
  have hmI : (minute : Int) < 60 := by exact_mod_cast hm
  simp only [calcNextRunWeekly, dailyTarget, dayIndex, secPerDay]
  split_ifs with hif <;> constructor <;> omega

theorem calcNextRunWeekly_min (dayOfWeek : Int) (hour minute : Nat)
    (hh : hour < 24) (hm : minute < 60) (tl u : Int)
    (hu1 : ((dayIndex u + 3) % 7 + 1) % 7 = dayOfWeek % 7)
    (hu2 : u % 86400 = 3600 * (hour : Int) + 60 * (minute : Int))
    (hlt : tl < u) :
    calcNextRunWeekly dayOfWeek hour minute tl ≤ u := by
  have hhI : (hour : Int) < 24 := by exact_mod_cast hh
  have hmI : (minute : Int) < 60 := by exact_mod_cast hm
  simp only [dayIndex, secPerDay] at hu1
  simp only [calcNextRunWeekly, dailyTarget, dayIndex, secPerDay]
  split_ifs with hif <;> omega

theorem calcNextRunSec_gt (s : ScheduleSec) (tl : Int) :
    tl < calcNextRunSec s tl := by
  cases s with
  | daily h m => exact calcNextRunDaily_gt h m tl
  | weekly dow h m => exact calcNextRunWeekly_gt dow h m tl
  | custom h m => exact calcNextRunDaily_gt h m tl

theorem calcNextRunSec_recur (s : ScheduleSec) (hv : scheduleValid s) (x : Int) :
    recurLocal s (calcNextRunSec s x) = true := by
  cases s with
  | daily h m =>
    simp only [recurLocal, calcNextRunSec, beq_iff_eq]
    exact calcNextRunDaily_mod h m hv.1 hv.2 x
  | weekly dow h m =>
    simp only [recurLocal, calcNextRunSec, Bool.and_eq_true, beq_iff_eq]
    exact calcNextRunWeekly_spec dow h m hv.1 hv.2 x
  | custom h m =>
    simp only [recurLocal, calcNextRunSec, beq_iff_eq]
    exact calcNextRunDaily_mod h m hv.1 hv.2 x

theorem calcNextRunSec_min (s : ScheduleSec) (hv : scheduleValid s) (x y : Int)
    (hy : recurLocal s y = true) (hlt : x < y) :
    calcNextRunSec s x ≤ y := by
  cases s with
  | daily h m =>
    simp only [recurLocal, beq_iff_eq] at hy
    exact calcNextRunDaily_min h m hv.1 hv.2 x y hy hlt
  | weekly dow h m =>
    simp only [recurLocal, Bool.and_eq_true, beq_iff_eq] at hy
    exact calcNextRunWeekly_min dow h m hv.1 hv.2 x y hy.1 hy.2 hlt
  | custom h m =>
    simp only [recurLocal, beq_iff_eq] at hy
    exact calcNextRunDaily_min h m hv.1 hv.2 x y hy hlt

/-- Any two distinct recurrence instants of one schedule are at least a day
    apart (they share the configured time of day). -/
theorem recurLocal_sep (s : ScheduleSec) (y z : Int)
    (hy : recurLocal s y = true) (hz : recurLocal s z = true) (hlt : y < z) :
    y + 86400 ≤ z := by
  cases s <;>
    simp only [recurLocal, Bool.and_eq_true, beq_iff_eq] at hy hz <;> omega

/-- One action of the catch-up walk.  `dispatchCatchup d u` stands for the
    `enqueue_device_backup(device, schedule, is_catchup=True)` call emitted in
    the loop iteration whose `next_run_utc` is `u`
    (`backups/scheduler.py` lines 317-321); `missedWindow d u` stands for the
    `create_missed_backup_result(device, schedule, u, now)` call
    (lines 322-326), which creates a `DeviceBackupResult` with
    `status='missed_window'` (lines 355-362). -/
inductive CatchupAction where
  | dispatchCatchup (deviceId : Int) (instant : Int)
  | missedWindow (deviceId : Int) (instant : Int)
deriving DecidableEq, Repr

/-- The per-schedule `while check_time < now` loop of
    `SchedulerDaemon.process_missed_backups`
    (`backups/scheduler.py` lines 309-333) for a schedule of a non-raising
    type (daily, weekly, custom/unknown; for monthly the inner
    `calculate_next_run` call can raise — see `monthlyCatchupAborts`):
    `next_run_utc = local_to_utc(calculate_next_run(schedule, check_time))`;
    when `last_tick < next_run_utc <= now`, dispatch a catch-up per device if
    `next_run_utc >= restart_cutoff`, else create a `missed_window` result per
    device; then `check_time = next_run_utc + timedelta(seconds=1)`, and stop
    when `(now - check_time).days > 365` (the runaway-loop guard). -/
def missedWalk (s : ScheduleSec) (off lastTick now cutoff : Int)
    (devices : List Int) (ct : Int) : List CatchupAction :=
  if _hlt : ct < now then
    let nr := calcNextRunSec s (ct + off) - off
    let acts : List CatchupAction :=
      if lastTick < nr ∧ nr ≤ now then
        if cutoff ≤ nr then
          devices.map (fun d => CatchupAction.dispatchCatchup d nr)
        else devices.map (fun d => CatchupAction.missedWindow d nr)
      else []
    if (now - (nr + 1)) / 86400 > 365 then acts
    else acts ++ missedWalk s off lastTick now cutoff devices (nr + 1)
  else []
termination_by (now - ct).toNat
decreasing_by
  have hgt := calcNextRunSec_gt s (ct + off)
  omega

/-- `SchedulerDaemon.process_missed_backups` for one enabled daily schedule
    (`backups/scheduler.py` lines 279-333): `restart_cutoff = now −
    restart_window_minutes` and the walk starts at `last_tick`.  `devices` is
    the list of primary keys of the schedule's enabled devices (Python skips
    the walk when it is empty, in which case the walk emits nothing anyway). -/
def processMissedBackups (s : ScheduleSec) (off lastTick now window : Int)
    (devices : List Int) : List CatchupAction :=
  missedWalk s off lastTick now (now - 60 * window) devices lastTick

/-- For a monthly schedule the catch-up walk's first step already calls
    `self.calculate_next_run(schedule, check_time)` at `check_time =
    last_tick` (`backups/scheduler.py` line 312).  There is no exception
    handler around that call, nor in `process_missed_backups`, nor on the
    path through `SchedulerDaemon.run` (lines 465-516, whose `try` has only
    a `finally`), so the `ValueError` that the monthly branch raises when
    `day_of_month` does not exist in the month reached aborts the entire
    catch-up with no actions emitted for any recurrence instant of the
    schedule.  This function is `true` exactly when that first call raises
    (walks that survive the first call can still die the same way at a
    later iteration crossing a short month). -/
def monthlyCatchupAborts (dayOfMonth hour minute : Int)
    (lastTickLocal : NaiveDT) : Bool :=
  (calcNextRunMonthlySched dayOfMonth hour minute lastTickLocal).isNone

theorem count_map_dispatch (devices : List Int) (d u v : Int) :
    (devices.map (fun x => CatchupAction.dispatchCatchup x v)).count
      (CatchupAction.dispatchCatchup d u) =
    if u = v then devices.count d else 0 := by
  induction devices with
  | nil => simp
  | cons x xs ih =>
    simp only [List.map_cons, List.count_cons, ih, beq_iff_eq,
      CatchupAction.dispatchCatchup.injEq]
    split_ifs <;> omega

theorem count_map_missed (devices : List Int) (d u v : Int) :
    (devices.map (fun x => CatchupAction.missedWindow x v)).count
      (CatchupAction.missedWindow d u) =
    if u = v then devices.count d else 0 := by
  induction devices with
  | nil => simp
  | cons x xs ih =>
    simp only [List.map_cons, List.count_cons, ih, beq_iff_eq,
      CatchupAction.missedWindow.injEq]
    split_ifs <;> omega

theorem count_map_dispatch_missed (devices : List Int) (d u v : Int) :
    (devices.map (fun x => CatchupAction.dispatchCatchup x v)).count
      (CatchupAction.missedWindow d u) = 0 := by
  induction devices with
  | nil => simp
  | cons x xs ih => simp [List.count_cons, ih]

theorem count_map_missed_dispatch (devices : List Int) (d u v : Int) :
    (devices.map (fun x => CatchupAction.missedWindow x v)).count
      (CatchupAction.dispatchCatchup d u) = 0 := by
  induction devices with
  | nil => simp
  | cons x xs ih => simp [List.count_cons, ih]

/-- Exact multiplicity of each action in the catch-up walk, provided the
    walk's 365-day safety break is never reached from the starting point
    (`now − ct ≤ 365` days): for every recurrence instant `u` of the daily
    schedule with `ct < u ≤ now`, the walk emits one `dispatchCatchup` per
    occurrence of the device in `devices` when `u` is at or after the cutoff
    and one `missedWindow` per occurrence when it is older, and nothing else. -/
theorem missedWalk_count (s : ScheduleSec) (hv : scheduleValid s)
    (off lastTick now cutoff : Int) (devices : List Int) :
    ∀ (fuel : Nat) (ct : Int), (now - ct).toNat ≤ fuel →
      lastTick ≤ ct → now - ct ≤ 365 * 86400 →
      ∀ d u,
        (missedWalk s off lastTick now cutoff devices ct).count
            (CatchupAction.dispatchCatchup d u) =
          (if recurLocal s (u + off) = true ∧
              ct < u ∧ u ≤ now ∧ cutoff ≤ u
           then devices.count d else 0) ∧
        (missedWalk s off lastTick now cutoff devices ct).count
            (CatchupAction.missedWindow d u) =
          (if recurLocal s (u + off) = true ∧
              ct < u ∧ u ≤ now ∧ u < cutoff
           then devices.count d else 0) := by
  intro fuel
  induction fuel with
  | zero =>
    intro ct hfuel hlt hgap d u
    have hnow : ¬ ct < now := by omega
    rw [missedWalk, dif_neg hnow]
    constructor <;>
      · rw [if_neg]
        · rfl
        · rintro ⟨-, h2, h3, -⟩
          omega
  | succ f ih =>
    intro ct hfuel hlt hgap d u
    by_cases hnow : ct < now
    · rw [missedWalk, dif_pos hnow]
      have hgt0 := calcNextRunSec_gt s (ct + off)
      set nr := calcNextRunSec s (ct + off) - off with hnrdef
      have hgt : ct < nr := by omega
      have hmod : recurLocal s (nr + off) = true := by
        have heq : nr + off = calcNextRunSec s (ct + off) := by omega
        rw [heq]
        exact calcNextRunSec_recur s hv (ct + off)
      have hmin : ∀ v : Int, recurLocal s (v + off) = true →
          ct < v → nr ≤ v := by
        intro v hv2 hltv
        have := calcNextRunSec_min s hv (ct + off) (v + off) hv2 (by omega)
        omega
      have hstep : ∀ v : Int, recurLocal s (v + off) = true →
          ct < v → v ≠ nr → nr + 86400 ≤ v := by
        intro v hv2 hltv hne
        have h1 : nr ≤ v := hmin v hv2 hltv
        have h3 : nr < v := lt_of_le_of_ne h1 (fun h => hne h.symm)
        have h4 := recurLocal_sep s (nr + off) (v + off) hmod hv2 (by omega)
        omega
      have hnobreak : ¬ ((now - (nr + 1)) / 86400 > 365) := by
        have h1 : now - (nr + 1) < now - ct := by omega
        omega
      rw [if_neg hnobreak]
      have hih := ih (nr + 1) (by omega) (by omega) (by omega) d u
      by_cases hle : nr ≤ now
      · rw [if_pos (show lastTick < nr ∧ nr ≤ now from ⟨by omega, hle⟩)]
        by_cases hcut : cutoff ≤ nr
        · rw [if_pos hcut]
          rw [List.count_append, List.count_append,
            count_map_dispatch, count_map_dispatch_missed,
            hih.1, hih.2]
          constructor
          · by_cases hu : u = nr
            · subst hu
              rw [if_pos rfl,
                if_neg (by rintro ⟨-, h2, -, -⟩; omega),
                if_pos (show _ ∧ _ ∧ _ ∧ _ from ⟨hmod, hgt, hle, hcut⟩)]
              omega
            · rw [if_neg hu]
              by_cases hrec : recurLocal s (u + off) = true
              · by_cases hctu : ct < u
                · have h86 : nr + 86400 ≤ u := hstep u hrec hctu hu
                  have hiff : (recurLocal s (u + off) = true ∧
                      nr + 1 < u ∧ u ≤ now ∧ cutoff ≤ u) ↔
                      (recurLocal s (u + off) = true ∧
                      ct < u ∧ u ≤ now ∧ cutoff ≤ u) := by
                    constructor <;> rintro ⟨a, b, c2, d2⟩ <;>
                      exact ⟨a, by omega, c2, d2⟩
                  rw [if_congr hiff rfl rfl]
                  omega
                · rw [if_neg (by rintro ⟨-, h2, -, -⟩; omega),
                    if_neg (by rintro ⟨-, h2, -, -⟩; omega)]
              · rw [if_neg (by rintro ⟨h1, -, -, -⟩; exact hrec h1),
                  if_neg (by rintro ⟨h1, -, -, -⟩; exact hrec h1)]
          · by_cases hu : u = nr
            · subst hu
              rw [if_neg (by rintro ⟨-, h2, -, -⟩; omega),
                if_neg (by rintro ⟨-, -, -, h4⟩; omega)]
            · by_cases hrec : recurLocal s (u + off) = true
              · by_cases hctu : ct < u
                · have h86 : nr + 86400 ≤ u := hstep u hrec hctu hu
                  have hiff : (recurLocal s (u + off) = true ∧
                      nr + 1 < u ∧ u ≤ now ∧ u < cutoff) ↔
                      (recurLocal s (u + off) = true ∧
                      ct < u ∧ u ≤ now ∧ u < cutoff) := by
                    constructor <;> rintro ⟨a, b, c2, d2⟩ <;>
                      exact ⟨a, by omega, c2, d2⟩
                  rw [if_congr hiff rfl rfl]
                  omega
                · rw [if_neg (by rintro ⟨-, h2, -, -⟩; omega),
                    if_neg (by rintro ⟨-, h2, -, -⟩; omega)]
              · rw [if_neg (by rintro ⟨h1, -, -, -⟩; exact hrec h1),
                  if_neg (by rintro ⟨h1, -, -, -⟩; exact hrec h1)]
        · rw [if_neg hcut]
          rw [List.count_append, List.count_append,
            count_map_missed, count_map_missed_dispatch,
            hih.1, hih.2]
          constructor
          · by_cases hu : u = nr
            · subst hu
              rw [if_neg (by rintro ⟨-, h2, -, -⟩; omega),
                if_neg (by rintro ⟨-, -, -, h4⟩; omega)]
            · by_cases hrec : recurLocal s (u + off) = true
              · by_cases hctu : ct < u
                · have h86 : nr + 86400 ≤ u := hstep u hrec hctu hu
                  have hiff : (recurLocal s (u + off) = true ∧
                      nr + 1 < u ∧ u ≤ now ∧ cutoff ≤ u) ↔
                      (recurLocal s (u + off) = true ∧
                      ct < u ∧ u ≤ now ∧ cutoff ≤ u) := by
                    constructor <;> rintro ⟨a, b, c2, d2⟩ <;>
                      exact ⟨a, by omega, c2, d2⟩
                  rw [if_congr hiff rfl rfl]
                  omega
                · rw [if_neg (by rintro ⟨-, h2, -, -⟩; omega),
                    if_neg (by rintro ⟨-, h2, -, -⟩; omega)]
              · rw [if_neg (by rintro ⟨h1, -, -, -⟩; exact hrec h1),
                  if_neg (by rintro ⟨h1, -, -, -⟩; exact hrec h1)]
          · by_cases hu : u = nr
            · subst hu
              rw [if_pos rfl,
                if_neg (by rintro ⟨-, h2, -, -⟩; omega),
                if_pos (show _ ∧ _ ∧ _ ∧ _ from ⟨hmod, hgt, hle, by omega⟩)]
              omega
            · rw [if_neg hu]
              by_cases hrec : recurLocal s (u + off) = true
              · by_cases hctu : ct < u
                · have h86 : nr + 86400 ≤ u := hstep u hrec hctu hu
                  have hiff : (recurLocal s (u + off) = true ∧
                      nr + 1 < u ∧ u ≤ now ∧ u < cutoff) ↔
                      (recurLocal s (u + off) = true ∧
                      ct < u ∧ u ≤ now ∧ u < cutoff) := by
                    constructor <;> rintro ⟨a, b, c2, d2⟩ <;>
                      exact ⟨a, by omega, c2, d2⟩
                  rw [if_congr hiff rfl rfl]
                  omega
                · rw [if_neg (by rintro ⟨-, h2, -, -⟩; omega),
                    if_neg (by rintro ⟨-, h2, -, -⟩; omega)]
              · rw [if_neg (by rintro ⟨h1, -, -, -⟩; exact hrec h1),
                  if_neg (by rintro ⟨h1, -, -, -⟩; exact hrec h1)]
      · rw [if_neg (by rintro ⟨-, h2⟩; omega)]
        rw [List.nil_append, hih.1, hih.2]
        constructor
        · by_cases hrec : recurLocal s (u + off) = true
          · by_cases hctu : ct < u
            · have h1 : nr ≤ u := hmin u hrec hctu
              rw [if_neg (by rintro ⟨-, -, h3, -⟩; omega),
                if_neg (by rintro ⟨-, -, h3, -⟩; omega)]
            · rw [if_neg (by rintro ⟨-, h2, -, -⟩; omega),
                if_neg (by rintro ⟨-, h2, -, -⟩; omega)]
          · rw [if_neg (by rintro ⟨h1, -, -, -⟩; exact hrec h1),
              if_neg (by rintro ⟨h1, -, -, -⟩; exact hrec h1)]
        · by_cases hrec : recurLocal s (u + off) = true
          · by_cases hctu : ct < u
            · have h1 : nr ≤ u := hmin u hrec hctu
              rw [if_neg (by rintro ⟨-, -, h3, -⟩; omega),
                if_neg (by rintro ⟨-, -, h3, -⟩; omega)]
            · rw [if_neg (by rintro ⟨-, h2, -, -⟩; omega),
                if_neg (by rintro ⟨-, h2, -, -⟩; omega)]
          · rw [if_neg (by rintro ⟨h1, -, -, -⟩; exact hrec h1),
              if_neg (by rintro ⟨h1, -, -, -⟩; exact hrec h1)]
    · rw [missedWalk, dif_neg hnow]
      constructor <;>
        · rw [if_neg]
          · rfl
          · rintro ⟨-, h2, h3, -⟩
            omega

/-- Counterexample to C5, two independent violations of the claim's
    universal statement: (1) with a daily midnight schedule (display offset
    0), `last_tick` at day 1 01:00 (90000 s) and `now` at day 400 01:00
    (34563600 s), the first walk iteration records day 2 midnight (172800 s)
    as missed and then the `(now - check_time).days > 365` safety break stops
    the walk — so the recurrence instant day 3 midnight (259200 s), strictly
    between `last_tick` and `now` and older than the 120-minute restart
    window, yields neither a `missed_window` record nor a dispatch;
    (2) for a monthly schedule on day 31 with `last_tick` local time in
    April 2026, the walk's very first `calculate_next_run` call raises
    `ValueError`, aborting the whole catch-up with no actions at all. -/
theorem catchup_break_counterexample :
    (processMissedBackups (ScheduleSec.daily 0 0) 0 90000 34563600 120 [7] =
        [CatchupAction.missedWindow 7 172800] ∧
      (90000 : Int) < 259200 ∧ (259200 : Int) < 34563600 ∧
      recurLocal (ScheduleSec.daily 0 0) (259200 + 0) = true ∧
      (259200 : Int) < 34563600 - 60 * 120 ∧
      CatchupAction.missedWindow 7 259200 ∉
        processMissedBackups (ScheduleSec.daily 0 0) 0 90000 34563600 120 [7]) ∧
    monthlyCatchupAborts 31 2 0 ⟨2026, 4, 15, 10, 0, 0, 0⟩ = true := by
  have h1 : calcNextRunSec (ScheduleSec.daily 0 0) (90000 + 0) = 172800 := by
    decide
  have hval : processMissedBackups (ScheduleSec.daily 0 0) 0 90000 34563600 120 [7] =
      [CatchupAction.missedWindow 7 172800] := by
    rw [processMissedBackups, missedWalk,
      dif_pos (by decide : (90000 : Int) < 34563600)]
    dsimp only
    rw [h1]
    norm_num
  refine ⟨⟨hval, by decide, by decide, by decide, by decide, ?_⟩, by decide⟩
  rw [hval]
  decide

/-- C5 as amended: during startup catch-up, for every enabled schedule of a
    type whose recurrence calculation cannot raise — daily, weekly, and the
    custom/unknown fallback (which degrades to the daily computation) — and
    every recurrence instant strictly between `last_tick` and `now` reached
    before the walk's 365-day safety break (in particular whenever
    `now − last_tick ≤ 365` days): an instant within
    `restart_window_minutes` of `now` yields exactly one catch-up dispatch
    per enabled device and no `missed_window` record, and an older instant
    yields exactly one `missed_window` `DeviceBackupResult` per enabled
    device and no dispatch.  For a monthly schedule the walk's inner
    `calculate_next_run` call can raise an uncaught `ValueError`, aborting
    the entire catch-up (see the counterexample), and past the break the
    remaining instants of any schedule get neither treatment. -/
theorem catchup_window_classification (s : ScheduleSec)
    (off lastTick now window : Int) (devices : List Int) (d u : Int)
    (hv : scheduleValid s)
    (hgap : now - lastTick ≤ 365 * 86400)
    (hrec : recurLocal s (u + off) = true)
    (h1 : lastTick < u) (h2 : u < now) :
    (now - 60 * window ≤ u →
      (processMissedBackups s off lastTick now window devices).count
          (CatchupAction.dispatchCatchup d u) = devices.count d ∧
      (processMissedBackups s off lastTick now window devices).count
          (CatchupAction.missedWindow d u) = 0) ∧
    (u < now - 60 * window →
      (processMissedBackups s off lastTick now window devices).count
          (CatchupAction.missedWindow d u) = devices.count d ∧
      (processMissedBackups s off lastTick now window devices).count
          (CatchupAction.dispatchCatchup d u) = 0) := by
  have hc := missedWalk_count s hv off lastTick now
    (now - 60 * window) devices (now - lastTick).toNat lastTick (by omega)
    le_rfl hgap d u
  unfold processMissedBackups
  constructor
  · intro hin
    refine ⟨?_, ?_⟩
    · rw [hc.1, if_pos (show _ ∧ _ ∧ _ ∧ _ from ⟨hrec, h1, by omega, hin⟩)]
    · rw [hc.2, if_neg (by rintro ⟨-, -, -, h4⟩; omega)]
  · intro hout
    refine ⟨?_, ?_⟩
    · rw [hc.2, if_pos (show _ ∧ _ ∧ _ ∧ _ from ⟨hrec, h1, by omega, hout⟩)]
    · rw [hc.1, if_neg (by rintro ⟨-, -, -, h4⟩; omega)]

/-- Witness for C5 (amended), instantiating the claim's example with
    `now` = 864000 s (day 10, 00:00), `last_tick = now − 3h`,
    `restart_window_minutes = 120`, device 5, across two schedule types: the
    daily 21:30 schedule due at `now − 150` min (855000 s) yields a
    `missed_window` record and no dispatch, while the weekly
    Saturday-22:30 schedule (day_of_week 6, Sunday = 0) due at `now − 90`
    min (858600 s, a Saturday) yields a dispatch and no `missed_window`
    record. -/
theorem catchup_window_classification_witness :
    ((855000 : Int) < 864000 - 60 * 120 →
      (processMissedBackups (ScheduleSec.daily 21 30) 0 853200 864000 120 [5]).count
          (CatchupAction.missedWindow 5 855000) = [(5 : Int)].count 5 ∧
      (processMissedBackups (ScheduleSec.daily 21 30) 0 853200 864000 120 [5]).count
          (CatchupAction.dispatchCatchup 5 855000) = 0) ∧
    ((864000 - 60 * 120 ≤ (858600 : Int)) →
      (processMissedBackups (ScheduleSec.weekly 6 22 30) 0 853200 864000 120 [5]).count
          (CatchupAction.dispatchCatchup 5 858600) = [(5 : Int)].count 5 ∧
      (processMissedBackups (ScheduleSec.weekly 6 22 30) 0 853200 864000 120 [5]).count
          (CatchupAction.missedWindow 5 858600) = 0) :=
  ⟨(catchup_window_classification (ScheduleSec.daily 21 30) 0 853200 864000 120
      [5] 5 855000 ⟨by decide, by decide⟩ (by decide) (by decide) (by decide)
      (by decide)).2,
    (catchup_window_classification (ScheduleSec.weekly 6 22 30) 0 853200 864000 120
      [5] 5 858600 ⟨by decide, by decide⟩ (by decide) (by decide) (by decide)
      (by decide)).1⟩

end DeviceVault
